import Mathlib

/-!
# Weather-Drone: the core of `app.js`

A shallow embedding of the flight-condition rules of `src/app.js`
(`config.limits`, `state`, `evaluateConditions`), of the Kp aggregation
(`loadKpIndex`), the hour selector (`getCurrentHourData`) and the recommendation
list (`updateRecommendations`), with the properties of what they produce.

Modelling conventions.

* JavaScript numbers are modelled by rationals (`ℚ`).  Every finite double is a
  rational and `<`, `>` on doubles are the exact order, so the comparisons are
  exact.  The only arithmetic of the evaluator is `limit * 0.7`; the doubles
  `29 * 0.7` and `38 * 0.7` are the doubles next below `20.3` and `26.6`, and no
  double lies strictly between them and these rationals, so a double exceeds the
  rounded product exactly when it exceeds the exact one.
* Where the code adds or divides numbers (`loadKpIndex`, `getCurrentHourData`)
  or reads them from text (`parseFloat`), the exact result is rounded to the
  nearest double by `roundDouble`, which has the 53-bit significand and the
  subnormal spacing `2^-1074` of binary64.  In `loadKpIndex` the numbers are
  of type `JsNum`: a finite double, `+Infinity`, `-Infinity` or NaN; a rounded
  result of magnitude `2^1024` or more overflows to an infinity, and
  `parseFloat` reads `Infinity` and returns NaN for text that is no number.
  The two zeros are not told apart: the sum starts from `+0`, so the Kp value
  is never `-0`.
* JavaScript arrays are lists; `push` appends at the end.
* The mutable object `conditions` is threaded through the seven blocks of
  `evaluateConditions`, one function per block, named after the comment that
  opens the block in the source.
* The global `state` read by the evaluator is an explicit argument; a function
  that assigns to `state` returns the new state.
-/

namespace WeatherDrone

/-! ## Data model -/

/-- The object `config.limits`: the operating envelope of the drone. -/
structure Limits where
  wind : ℚ
  gusts : ℚ
  tempMin : ℚ
  tempMax : ℚ
  rain : ℚ
  clouds : ℚ
  visibility : ℚ
  kpIndex : ℚ

/-- The constant `config.limits` of `app.js` (lines 9-18). -/
def config.limits : Limits :=
  { wind := 29, gusts := 38, tempMin := 0, tempMax := 40,
    rain := 20, clouds := 70, visibility := 3, kpIndex := 4 }

/-- The part of the global `state` that the evaluator reads. -/
structure State where
  kpIndex : ℚ
  kpStatus : String

/-- The initial value of `state` (lines 22-30): Kp 2, status "bajo". -/
def state : State := { kpIndex := 2, kpStatus := "bajo" }

/-- One hour of weather as `evaluateConditions` reads it: the fields of the
object built by `getCurrentHourData`, each as the number the comparisons see. -/
structure HourData where
  temp : ℚ
  wind : ℚ
  gusts : ℚ
  clouds : ℚ
  rain : ℚ
  visibility : ℚ

/-- The `type` field of an entry of `conditions.details`:
the strings 'danger', 'warning' and 'safe'. -/
inductive DetailType where
  | danger
  | warning
  | safe
  deriving DecidableEq, Repr

/-- An entry of `conditions.details`. -/
structure Detail where
  type : DetailType
  title : String
  message : String
  icon : String
  deriving DecidableEq, Repr

/-- The object `conditions` built and returned by `evaluateConditions`. -/
structure Conditions where
  safe : Bool
  warnings : List String
  dangers : List String
  details : List Detail
  deriving DecidableEq, Repr

/-! ## Primitives of the host language -/

/-- The method `Array.prototype.push`: append one element at the end. -/
def push {α : Type} (xs : List α) (x : α) : List α := xs ++ [x]

/-- Digits after the decimal point of `r / d` (with `r < d`), at most `fuel` of them. -/
def fracDigits : Nat → Nat → Nat → List Char
  | 0, _, _ => []
  | fuel + 1, r, d =>
    if r = 0 then [] else Nat.digitChar (r * 10 / d) :: fracDigits fuel (r * 10 % d) d

/-- The conversion of a number to a string inside a template literal.  Integers
are printed in decimal, as JavaScript prints them below 10^21; any other value is
printed by its decimal expansion, cut after 20 fractional digits (for a decimal
such as 29.01 this is the text JavaScript prints).  No theorem below depends on
the digits produced, except where a concrete message is spelled out. -/
def numToString (x : ℚ) : String :=
  let n := x.num.natAbs
  let d := x.den
  let s := Nat.repr (n / d) ++ (if n % d = 0 then "" else "." ++ String.mk (fracDigits 20 (n % d) d))
  if x < 0 then "-" ++ s else s

/-- The method `Number.prototype.toFixed(1)` for magnitudes below 10^21: the
sign, then the integer `n` nearest to `10 * |x|` (the larger one on a tie, i.e.
`⌊10|x| + 1/2⌋`, computed here from numerator and denominator) printed with one
digit after the point. -/
def toFixed1 (x : ℚ) : String :=
  let n := (20 * x.num.natAbs + x.den) / (2 * x.den)
  let s := Nat.repr (n / 10) ++ "." ++ Nat.repr (n % 10)
  if x < 0 then "-" ++ s else s

/-! ## The evaluator, block by block -/

/-- The block TEMPERATURA (lines 363-390). -/
def temperatura (data : HourData) (conditions : Conditions) : Conditions :=
  if data.temp < config.limits.tempMin then
    { conditions with
      dangers := push conditions.dangers ("Temperatura muy baja (" ++ numToString data.temp ++ "°C)")
      details := push conditions.details
        { type := .danger
          title := "Temperatura baja"
          message := "La temperatura de " ++ numToString data.temp ++ "°C está por debajo del mínimo recomendado (" ++ numToString config.limits.tempMin ++ "°C) para el DJI Mini 2. Puede afectar la batería y el rendimiento."
          icon := "fas fa-temperature-low" }
      safe := false }
  else if data.temp > config.limits.tempMax then
    { conditions with
      dangers := push conditions.dangers ("Temperatura muy alta (" ++ numToString data.temp ++ "°C)")
      details := push conditions.details
        { type := .danger
          title := "Temperatura alta"
          message := "La temperatura de " ++ numToString data.temp ++ "°C excede el máximo recomendado (" ++ numToString config.limits.tempMax ++ "°C). El dron puede sobrecalentarse y la batería se degradará más rápido."
          icon := "fas fa-temperature-high" }
      safe := false }
  else if data.temp < 5 ∨ data.temp > 35 then
    { conditions with
      warnings := push conditions.warnings ("Temperatura en límites (" ++ numToString data.temp ++ "°C)")
      details := push conditions.details
        { type := .warning
          title := "Temperatura extrema"
          message := "La temperatura de " ++ numToString data.temp ++ "°C está cerca de los límites de operación. Monitorea la temperatura de la batería."
          icon := "fas fa-thermometer-half" } }
  else conditions

/-- The block VIENTO (lines 392-410). -/
def viento (data : HourData) (conditions : Conditions) : Conditions :=
  if data.wind > config.limits.wind then
    { conditions with
      dangers := push conditions.dangers ("Viento fuerte (" ++ numToString data.wind ++ " km/h)")
      details := push conditions.details
        { type := .danger
          title := "Viento excesivo"
          message := "Viento de " ++ numToString data.wind ++ " km/h excede el límite del DJI Mini 2 (" ++ numToString config.limits.wind ++ " km/h). El dron puede perder estabilidad y tener dificultades para regresar."
          icon := "fas fa-wind" }
      safe := false }
  else if data.wind > config.limits.wind * 0.7 then
    { conditions with
      warnings := push conditions.warnings ("Viento moderado (" ++ numToString data.wind ++ " km/h)")
      details := push conditions.details
        { type := .warning
          title := "Viento moderado"
          message := "Viento de " ++ numToString data.wind ++ " km/h. Vuela con precaución, mantén el dron a la vista y considera reducir la distancia máxima."
          icon := "fas fa-wind" } }
  else conditions

/-- The block RÁFAGAS (lines 412-430). -/
def rafagas (data : HourData) (conditions : Conditions) : Conditions :=
  if data.gusts > config.limits.gusts then
    { conditions with
      dangers := push conditions.dangers ("Ráfagas fuertes (" ++ numToString data.gusts ++ " km/h)")
      details := push conditions.details
        { type := .danger
          title := "Ráfagas peligrosas"
          message := "Ráfagas de hasta " ++ numToString data.gusts ++ " km/h. Son impredecibles y pueden voltear el dron o causar pérdida de control."
          icon := "fas fa-tachometer-alt" }
      safe := false }
  else if data.gusts > config.limits.gusts * 0.7 then
    { conditions with
      warnings := push conditions.warnings ("Ráfagas moderadas (" ++ numToString data.gusts ++ " km/h)")
      details := push conditions.details
        { type := .warning
          title := "Ráfagas presentes"
          message := "Ráfagas de " ++ numToString data.gusts ++ " km/h detectadas. Mantén una altura segura y evita vuelos sobre obstáculos."
          icon := "fas fa-tachometer-alt" } }
  else conditions

/-- The block LLUVIA (lines 432-450). -/
def lluvia (data : HourData) (conditions : Conditions) : Conditions :=
  if data.rain > config.limits.rain then
    { conditions with
      dangers := push conditions.dangers ("Probabilidad de lluvia alta (" ++ numToString data.rain ++ "%)")
      details := push conditions.details
        { type := .danger
          title := "Riesgo de lluvia"
          message := "Probabilidad de lluvia del " ++ numToString data.rain ++ "%. El DJI Mini 2 NO es resistente al agua. La lluvia puede dañar los motores y componentes electrónicos permanentemente."
          icon := "fas fa-tint" }
      safe := false }
  else if data.rain > 0 then
    { conditions with
      warnings := push conditions.warnings ("Posibilidad de lluvia (" ++ numToString data.rain ++ "%)")
      details := push conditions.details
        { type := .warning
          title := "Posible lluvia"
          message := numToString data.rain ++ "% de probabilidad de lluvia. Prepárate para aterrizar rápidamente si comienza a llover."
          icon := "fas fa-cloud-rain" } }
  else conditions

/-- The block NUBES (lines 452-461). -/
def nubes (data : HourData) (conditions : Conditions) : Conditions :=
  if data.clouds > config.limits.clouds then
    { conditions with
      warnings := push conditions.warnings ("Mucha nubosidad (" ++ numToString data.clouds ++ "%)")
      details := push conditions.details
        { type := .warning
          title := "Nubosidad alta"
          message := "Cobertura de nubes del " ++ numToString data.clouds ++ "%. Puede afectar la señal GPS y la estabilidad del vuelo. Mantén el dron a la vista."
          icon := "fas fa-cloud" } }
  else conditions

/-- The block VISIBILIDAD (lines 463-481). -/
def visibilidad (data : HourData) (conditions : Conditions) : Conditions :=
  if data.visibility < config.limits.visibility then
    { conditions with
      dangers := push conditions.dangers ("Visibilidad reducida (" ++ numToString data.visibility ++ " km)")
      details := push conditions.details
        { type := .danger
          title := "Visibilidad limitada"
          message := "Visibilidad de " ++ numToString data.visibility ++ " km. Dificulta mantener el dron a la vista y aumenta el riesgo de colisiones. Vuelo no recomendado."
          icon := "fas fa-eye" }
      safe := false }
  else if data.visibility < 5 then
    { conditions with
      warnings := push conditions.warnings ("Visibilidad moderada (" ++ numToString data.visibility ++ " km)")
      details := push conditions.details
        { type := .warning
          title := "Visibilidad reducida"
          message := "Visibilidad de " ++ numToString data.visibility ++ " km. Mantén el dron cerca y usa luces si vuelas al atardecer."
          icon := "fas fa-eye" } }
  else conditions

/-- The block ÍNDICE Kp (lines 483-508); it reads the global `state`. -/
def indiceKp (state : State) (conditions : Conditions) : Conditions :=
  if state.kpIndex > 6 then
    { conditions with
      dangers := push conditions.dangers ("Alta actividad geomagnética (Kp=" ++ toFixed1 state.kpIndex ++ ")")
      details := push conditions.details
        { type := .danger
          title := "Tormenta geomagnética"
          message := "Índice Kp de " ++ toFixed1 state.kpIndex ++ " (" ++ state.kpStatus ++ "). Puede causar interferencias en GPS, pérdida de señal y lecturas erróneas de la brújula. NO VUELES."
          icon := "fas fa-satellite" }
      safe := false }
  else if state.kpIndex > 4 then
    { conditions with
      warnings := push conditions.warnings ("Actividad geomagnética moderada (Kp=" ++ toFixed1 state.kpIndex ++ ")")
      details := push conditions.details
        { type := .warning
          title := "Alteraciones magnéticas"
          message := "Índice Kp de " ++ toFixed1 state.kpIndex ++ ". Puede haber interferencias en GPS. Calibrar la brújula antes de volar y verificar la señal GPS constantemente."
          icon := "fas fa-compass" } }
  else if state.kpIndex > 2 then
    { conditions with
      details := push conditions.details
        { type := .safe
          title := "Actividad geomagnética baja"
          message := "Índice Kp de " ++ toFixed1 state.kpIndex ++ ". Condiciones normales para GPS y brújula."
          icon := "fas fa-satellite" } }
  else conditions

/-- The value `conditions` starts from (lines 356-361). -/
def Conditions.init : Conditions :=
  { safe := true, warnings := [], dangers := [], details := [] }

/-- The function `evaluateConditions(data)` (lines 355-511). -/
def evaluateConditions (state : State) (data : HourData) : Conditions :=
  let conditions := Conditions.init
  let conditions := temperatura data conditions
  let conditions := viento data conditions
  let conditions := rafagas data conditions
  let conditions := lluvia data conditions
  let conditions := nubes data conditions
  let conditions := visibilidad data conditions
  let conditions := indiceKp state conditions
  conditions

/-- The verdict of the six weather blocks, as it stands when the Kp block starts. -/
def weatherVerdict (data : HourData) : Conditions :=
  visibilidad data (nubes data (lluvia data (rafagas data (viento data
    (temperatura data Conditions.init)))))

/-! ## Vocabulary of the specification -/

/-- The seven dimensions of the specification, in the order the evaluator visits them. -/
inductive Dimension where
  | temperature
  | wind
  | gusts
  | rain
  | clouds
  | visibility
  | geomagnetic
  deriving DecidableEq, Repr

/-- Position of a dimension in the order temperature, wind, gusts, rain, clouds,
visibility, geomagnetic. -/
def Dimension.rank : Dimension → Nat
  | .temperature => 0
  | .wind => 1
  | .gusts => 2
  | .rain => 3
  | .clouds => 4
  | .visibility => 5
  | .geomagnetic => 6

/-- The dimension a detail entry reports on, read off its title (the fifteen
titles of the source are pairwise different). -/
def dimensionOf (d : Detail) : Option Dimension :=
  match d.title with
  | "Temperatura baja" => some .temperature
  | "Temperatura alta" => some .temperature
  | "Temperatura extrema" => some .temperature
  | "Viento excesivo" => some .wind
  | "Viento moderado" => some .wind
  | "Ráfagas peligrosas" => some .gusts
  | "Ráfagas presentes" => some .gusts
  | "Riesgo de lluvia" => some .rain
  | "Posible lluvia" => some .rain
  | "Nubosidad alta" => some .clouds
  | "Visibilidad limitada" => some .visibility
  | "Visibilidad reducida" => some .visibility
  | "Tormenta geomagnética" => some .geomagnetic
  | "Alteraciones magnéticas" => some .geomagnetic
  | "Actividad geomagnética baja" => some .geomagnetic
  | _ => none

/-- The short message that the source pushes to `dangers` or `warnings` together
with the detail entry of a given title; the 'safe' entry has none. -/
def shortForm (state : State) (data : HourData) (d : Detail) : Option String :=
  match d.title with
  | "Temperatura baja" => some ("Temperatura muy baja (" ++ numToString data.temp ++ "°C)")
  | "Temperatura alta" => some ("Temperatura muy alta (" ++ numToString data.temp ++ "°C)")
  | "Temperatura extrema" => some ("Temperatura en límites (" ++ numToString data.temp ++ "°C)")
  | "Viento excesivo" => some ("Viento fuerte (" ++ numToString data.wind ++ " km/h)")
  | "Viento moderado" => some ("Viento moderado (" ++ numToString data.wind ++ " km/h)")
  | "Ráfagas peligrosas" => some ("Ráfagas fuertes (" ++ numToString data.gusts ++ " km/h)")
  | "Ráfagas presentes" => some ("Ráfagas moderadas (" ++ numToString data.gusts ++ " km/h)")
  | "Riesgo de lluvia" => some ("Probabilidad de lluvia alta (" ++ numToString data.rain ++ "%)")
  | "Posible lluvia" => some ("Posibilidad de lluvia (" ++ numToString data.rain ++ "%)")
  | "Nubosidad alta" => some ("Mucha nubosidad (" ++ numToString data.clouds ++ "%)")
  | "Visibilidad limitada" => some ("Visibilidad reducida (" ++ numToString data.visibility ++ " km)")
  | "Visibilidad reducida" => some ("Visibilidad moderada (" ++ numToString data.visibility ++ " km)")
  | "Tormenta geomagnética" => some ("Alta actividad geomagnética (Kp=" ++ toFixed1 state.kpIndex ++ ")")
  | "Alteraciones magnéticas" => some ("Actividad geomagnética moderada (Kp=" ++ toFixed1 state.kpIndex ++ ")")
  | _ => none

/-- The entries of `conditions.details` that report on one dimension. -/
def detailsOf (dim : Dimension) (c : Conditions) : List Detail :=
  c.details.filter (fun d => dimensionOf d = some dim)

/-- Whether a verdict has a detail of type `t` for the dimension `dim`. -/
def hasDetail (t : DetailType) (dim : Dimension) (c : Conditions) : Bool :=
  (detailsOf dim c).any (fun d => d.type = t)

/-- Severity of a dimension in a verdict, on the scale none < warning < danger:
2 when it has a danger detail, 1 when it has a warning detail (and no danger),
0 otherwise. -/
def severity (dim : Dimension) (c : Conditions) : Nat :=
  if hasDetail .danger dim c then 2
  else if hasDetail .warning dim c then 1
  else 0

/-- Detail `a` belongs to a dimension that comes strictly before the one of `b`. -/
def precedes (a b : Detail) : Prop :=
  ∃ i j, dimensionOf a = some i ∧ dimensionOf b = some j ∧ i.rank < j.rank

/-- The block of the evaluator that handles a dimension, run on its own. -/
def block (state : State) (data : HourData) : Dimension → Conditions
  | .temperature => temperatura data Conditions.init
  | .wind => viento data Conditions.init
  | .gusts => rafagas data Conditions.init
  | .rain => lluvia data Conditions.init
  | .clouds => nubes data Conditions.init
  | .visibility => visibilidad data Conditions.init
  | .geomagnetic => indiceKp state Conditions.init

/-- What a block adds to the verdict built so far: the messages and details are
appended, and `safe` stays true only if the block leaves it true. -/
def Conditions.app (c x : Conditions) : Conditions :=
  { safe := c.safe && x.safe
    warnings := c.warnings ++ x.warnings
    dangers := c.dangers ++ x.dangers
    details := c.details ++ x.details }

/-- The contribution of the block of dimension `dim`: nothing at all, or one
detail of that dimension together with its short message in the matching list
(a danger also clears `safe`; a 'safe' note adds no message). -/
def BlockOK (state : State) (data : HourData) (dim : Dimension) (x : Conditions) : Prop :=
  x = Conditions.init ∨
  ∃ d, x.details = [d] ∧ dimensionOf d = some dim ∧
    ((d.type = .danger ∧ ∃ s, shortForm state data d = some s ∧
        x.dangers = [s] ∧ x.warnings = [] ∧ x.safe = false) ∨
     (d.type = .warning ∧ ∃ s, shortForm state data d = some s ∧
        x.dangers = [] ∧ x.warnings = [s] ∧ x.safe = true) ∨
     (d.type = .safe ∧ x.dangers = [] ∧ x.warnings = [] ∧ x.safe = true))

/-- The invariant kept while the blocks run: `safe` says that `dangers` is empty,
both message lists are the short forms of the details of their type, the details
are in strictly increasing dimension order, and there are at most `n` of them,
all from the first `n` dimensions. -/
def Inv (state : State) (data : HourData) (n : Nat) (c : Conditions) : Prop :=
  (c.safe = true ↔ c.dangers = []) ∧
  c.dangers.map some =
    (c.details.filter (fun d => d.type = .danger)).map (shortForm state data) ∧
  c.warnings.map some =
    (c.details.filter (fun d => d.type = .warning)).map (shortForm state data) ∧
  c.details.Pairwise precedes ∧
  (∀ d ∈ c.details, ∃ dim, dimensionOf d = some dim ∧ dim.rank < n) ∧
  c.details.length ≤ n

/-! ## Double arithmetic

`loadKpIndex` adds and divides numbers and `getCurrentHourData` divides one, so
the results there are rounded to binary64. -/

/-- The integer nearest to `m`; of two equally near ones, the even one. -/
def roundHalfEven (m : ℚ) : ℤ :=
  let f := ⌊m⌋
  if m - f < 1 / 2 then f
  else if 1 / 2 < m - f then f + 1
  else if f % 2 = 0 then f else f + 1

/-- Rounding of the exact value `x` to binary64 precision (IEEE-754, round to
nearest, ties to even): `x` is scaled to a significand below `2^53`, which is
rounded to an integer; the scale is the power of two of `x`, but never finer
than `2^-1074`, the spacing of the subnormal numbers.  A result of magnitude
`2^1024` or more is one that overflows; `ofExact` turns it into an infinity. -/
def roundDouble (x : ℚ) : ℚ :=
  if x = 0 then 0
  else
    let e := max (Int.log 2 |x| - 52) (-1074)
    let m := roundHalfEven (|x| / 2 ^ e)
    if x < 0 then -(m * 2 ^ e) else m * 2 ^ e

/-- The operator `+` on two finite doubles whose sum does not overflow. -/
def fadd (a b : ℚ) : ℚ := roundDouble (a + b)

/-- The operator `/` on two finite doubles, for a divisor other than zero and a
quotient that does not overflow. -/
def fdiv (a b : ℚ) : ℚ := roundDouble (a / b)

/-- A JavaScript number: a finite double (given by its exact value; the two
zeros are not told apart), an infinity, or NaN. -/
inductive JsNum where
  | nan
  | negInf
  | fin (x : ℚ)
  | posInf
  deriving DecidableEq

/-- The double nearest to the exact value `x`, with overflow to an infinity. -/
def JsNum.ofExact (x : ℚ) : JsNum :=
  if 2 ^ 1024 ≤ roundDouble x then .posInf
  else if roundDouble x ≤ -2 ^ 1024 then .negInf
  else .fin (roundDouble x)

/-- The operator `+` on numbers. -/
def JsNum.add (a b : JsNum) : JsNum :=
  match a, b with
  | .nan, _ => .nan
  | _, .nan => .nan
  | .posInf, .negInf => .nan
  | .negInf, .posInf => .nan
  | .posInf, _ => .posInf
  | _, .posInf => .posInf
  | .negInf, _ => .negInf
  | _, .negInf => .negInf
  | .fin x, .fin y => JsNum.ofExact (x + y)

/-- The operator `/` with a natural number `n` on the right (the length of an
array); a finite number divided by 0 is an infinity of its sign, and NaN when
it is itself 0. -/
def JsNum.divCount (a : JsNum) (n : ℕ) : JsNum :=
  match a with
  | .nan => .nan
  | .negInf => .negInf
  | .posInf => .posInf
  | .fin x =>
    if n = 0 then (if x = 0 then .nan else if x < 0 then .negInf else .posInf)
    else JsNum.ofExact (x / n)

/-- The comparison `a >= 0`. -/
def JsNum.geZero (a : JsNum) : Bool :=
  match a with
  | .fin x => 0 ≤ x
  | .posInf => true
  | _ => false

/-- The comparison `a <= b` with a finite number `b` on the right. -/
def JsNum.le (a : JsNum) (b : ℚ) : Bool :=
  match a with
  | .fin x => x ≤ b
  | .negInf => true
  | _ => false

/-- The function `isNaN` on a number. -/
def JsNum.isNaN (a : JsNum) : Bool :=
  match a with
  | .nan => true
  | _ => false

/-! ## The Kp feed and `loadKpIndex` -/

/-- A JSON value found at position 1 of a feed row, as far as `parseFloat`
tells them apart: a string, a number (given by the exact value of its literal),
or anything that converts to a string that is no number (null, true, false, an
object).  Rows inside rows are not modelled. -/
inductive Cell where
  | str (s : String)
  | num (x : ℚ)
  | other
  deriving DecidableEq

/-- An element of the feed array: an array of cells, or any other JSON value. -/
inductive Item where
  | array (cells : List Cell)
  | other
  deriving DecidableEq

/-- The value `data` that `response.json()` yields: an array, or any other JSON value. -/
inductive Feed where
  | array (items : List Item)
  | other
  deriving DecidableEq

/-- A decimal literal read by `parseFloat`: the value is `± mant * 10 ^ exp`. -/
structure Decimal where
  neg : Bool
  mant : Nat
  exp : Int
  deriving DecidableEq, Repr

/-- The exact value of a decimal literal. -/
def Decimal.value (d : Decimal) : ℚ :=
  if d.neg then -((d.mant : ℚ) * 10 ^ d.exp) else (d.mant : ℚ) * 10 ^ d.exp

/-- The number written by a string of decimal digits. -/
def digitsToNat (ds : List Char) : Nat :=
  ds.foldl (fun n c => 10 * n + (c.toNat - '0'.toNat)) 0

/-- The exponent part of a decimal literal: `e` or `E`, an optional sign and at
least one digit; anything else is not part of the number and counts as exponent 0. -/
def parseExponent (cs : List Char) : Int :=
  match cs with
  | c :: r =>
    if c = 'e' ∨ c = 'E' then
      match r with
      | '-' :: r2 => -(digitsToNat (r2.span Char.isDigit).1 : Int)
      | '+' :: r2 => (digitsToNat (r2.span Char.isDigit).1 : Int)
      | _ => (digitsToNat (r.span Char.isDigit).1 : Int)
    else 0
  | [] => 0

/-- The characters that `parseFloat` skips at the start of a string: the white
space and line terminators of ECMAScript (tab, line feed, vertical tab, form
feed, carriage return, space, no-break space, the Unicode space separators, the
line and paragraph separators, the byte order mark). -/
def isStrWhiteSpace (c : Char) : Bool :=
  c.toNat = 0x09 || c.toNat = 0x0A || c.toNat = 0x0B || c.toNat = 0x0C || c.toNat = 0x0D ||
  c.toNat = 0x20 || c.toNat = 0xA0 || c.toNat = 0x1680 ||
  (0x2000 ≤ c.toNat && c.toNat ≤ 0x200A) ||
  c.toNat = 0x2028 || c.toNat = 0x2029 || c.toNat = 0x202F || c.toNat = 0x205F ||
  c.toNat = 0x3000 || c.toNat = 0xFEFF

/-- A string after its white space and sign: whether it is negative, and the rest. -/
def splitSign (cs : List Char) : Bool × List Char :=
  match cs.dropWhile isStrWhiteSpace with
  | '-' :: r => (true, r)
  | '+' :: r => (false, r)
  | r => (false, r)

/-- The longest prefix of an unsigned string that is a decimal literal: digits,
point, digits, exponent.  There is no result when no digit is found. -/
def parseDecimal (neg : Bool) (cs : List Char) : Option Decimal :=
  let ip := cs.span Char.isDigit
  let fp : List Char × List Char :=
    match ip.2 with
    | '.' :: r => r.span Char.isDigit
    | _ => ([], ip.2)
  if ip.1 = [] ∧ fp.1 = [] then none
  else some
    { neg := neg
      mant := digitsToNat (ip.1 ++ fp.1)
      exp := parseExponent fp.2 - fp.1.length }

/-- The function `parseFloat` on a string: white space is skipped, then the
longest prefix that is a signed decimal literal or a signed `Infinity` is read
and its value rounded to a double; NaN when there is no such prefix. -/
def parseFloatStr (s : String) : JsNum :=
  let signed := splitSign s.data
  if "Infinity".data.isPrefixOf signed.2 then
    if signed.1 then .negInf else .posInf
  else
    match parseDecimal signed.1 signed.2 with
    | some d => JsNum.ofExact d.value
    | none => .nan

/-- The function `parseFloat` on a cell.  A number cell is the double of its
literal, which `parseFloat` returns as it is. -/
def parseFloat (c : Cell) : JsNum :=
  match c with
  | .str s => parseFloatStr s
  | .num x => JsNum.ofExact x
  | .other => .nan

/-- The callback of `.map` (lines 324-329): `parseFloat(item[1])` for an array
of more than one element, otherwise null (`none`). -/
def parseItem (item : Item) : Option JsNum :=
  match item with
  | .array cells =>
    if cells.length > 1 then
      match cells.get? 1 with
      | some c => some (parseFloat c)
      | none => none
    else none
  | .other => none

/-- The test of `.filter` (line 330) on a number:
`!isNaN(kp) && kp >= 0`. -/
def JsNum.isValid (kp : JsNum) : Bool := !kp.isNaN && kp.geZero

/-- The constant `kpValues` (lines 323-330): `data.slice(1)`, mapped by
`parseItem`, filtered by `kp !== null && !isNaN(kp) && kp >= 0`. -/
def kpValues (data : List Item) : List JsNum :=
  ((data.drop 1).map parseItem).filterMap (fun kp => kp.filter JsNum.isValid)

/-- The call `xs.slice(-3)`: the last three elements, or all when there are fewer. -/
def sliceLast3 {α : Type} (xs : List α) : List α := xs.drop (xs.length - 3)

/-- The status label of a finite Kp value (lines 338-341). -/
def kpStatusOf (kpIndex : ℚ) : String :=
  if kpIndex ≤ 3 then "bajo"
  else if kpIndex ≤ 5 then "moderado"
  else if kpIndex ≤ 7 then "alto"
  else "tormenta"

/-- The status label of any Kp value (lines 338-341). -/
def kpStatusOfNum (kpIndex : JsNum) : String :=
  if kpIndex.le 3 then "bajo"
  else if kpIndex.le 5 then "moderado"
  else if kpIndex.le 7 then "alto"
  else "tormenta"

/-- The fields `kpIndex` and `kpStatus` of `state` as `loadKpIndex` reads and
writes them: the value it stores can be infinite. -/
structure KpReading where
  kpIndex : JsNum
  kpStatus : String
  deriving DecidableEq

/-- The reading held by a state whose Kp value is finite. -/
def State.reading (state : State) : KpReading :=
  { kpIndex := .fin state.kpIndex, kpStatus := state.kpStatus }

/-- The expression `recentKp.reduce((a, b) => a + b, 0) / recentKp.length`
(line 335). -/
def jsMean (recentKp : List JsNum) : JsNum :=
  JsNum.divCount (recentKp.foldl JsNum.add (.fin 0)) recentKp.length

/-- The function `loadKpIndex` (lines 313-352) as a transformer of the reading
held in `state`.  The argument `response` is the outcome of the two awaited
calls: `none` when `fetch` or `response.json()` throws, which runs the `catch`
block, and `some data` otherwise. -/
def loadKpIndex (state : KpReading) (response : Option Feed) : KpReading :=
  match response with
  | none => { state with kpIndex := .fin 2, kpStatus := "bajo" }
  | some .other => state
  | some (.array data) =>
    if data.length > 1 then
      let kpValues := kpValues data
      if kpValues.length > 0 then
        let recentKp := sliceLast3 kpValues
        let kpIndex := JsNum.divCount (recentKp.foldl JsNum.add (.fin 0)) recentKp.length
        { state with kpIndex := kpIndex, kpStatus := kpStatusOfNum kpIndex }
      else state
    else state

/-! ## The forecast and `getCurrentHourData` -/

/-- The object `state.weatherData.hourly`: six parallel arrays whose entries are
numbers or null (`none`). -/
structure Hourly where
  temperature_2m : List (Option ℚ)
  windspeed_10m : List (Option ℚ)
  windgusts_10m : List (Option ℚ)
  cloudcover : List (Option ℚ)
  precipitation_probability : List (Option ℚ)
  visibility : List (Option ℚ)

/-- The object `state.weatherData`; its field `hourly` may be absent. -/
structure WeatherData where
  hourly : Option Hourly

/-- The object literal returned by `getCurrentHourData`: five numbers and the
string made by `toFixed(1)` (in the built-in sample the number 10, kept here by
its text "10"). -/
structure HourReading where
  temp : ℚ
  wind : ℚ
  gusts : ℚ
  clouds : ℚ
  rain : ℚ
  visibility : String
  deriving DecidableEq, Repr

/-- The expression `xs[i]`: `none` stands for undefined (index out of range) and
for a null entry. -/
def index (xs : List (Option ℚ)) (i : ℤ) : Option ℚ :=
  if i < 0 then none else (xs.get? i.toNat).join

/-- The expression `v || d` on an array entry: `d` when `v` is undefined, null or 0. -/
def orDefault (v : Option ℚ) (d : ℚ) : ℚ :=
  match v with
  | some x => if x = 0 then d else x
  | none => d

/-- The function `Math.round`: the nearest integer, the larger one on a tie. -/
def mathRound (x : ℚ) : ℚ := (⌊x + 1 / 2⌋ : ℤ)

/-- The function `getCurrentHourData` (lines 165-189); it reads
`state.weatherData` and `state.currentHour`, passed here as arguments. -/
def getCurrentHourData (weatherData : Option WeatherData) (currentHour : ℤ) : HourReading :=
  match weatherData.bind (fun w => w.hourly) with
  | none =>
    { temp := 22, wind := 12, gusts := 15, clouds := 30, rain := 5, visibility := "10" }
  | some hourly =>
    let hourIndex := min currentHour ((hourly.temperature_2m.length : ℤ) - 1)
    { temp := mathRound (orDefault (index hourly.temperature_2m hourIndex) 0)
      wind := mathRound (orDefault (index hourly.windspeed_10m hourIndex) 0)
      gusts := mathRound (orDefault (index hourly.windgusts_10m hourIndex) 0)
      clouds := mathRound (orDefault (index hourly.cloudcover hourIndex) 0)
      rain := mathRound (orDefault (index hourly.precipitation_probability hourIndex) 0)
      visibility := toFixed1 (fdiv (orDefault (index hourly.visibility hourIndex) 10000) 1000) }

/-- The forecast that `loadWeatherData` substitutes when the request fails
(lines 778-787): 24 hours. -/
def fallbackHourly : Hourly :=
  { temperature_2m := [22, 21, 20, 19, 18, 17, 16, 15, 14, 13, 12, 11, 10, 9, 8, 7, 6, 5,
      4, 3, 2, 1, 0, -1].map some
    windspeed_10m := List.replicate 24 (some 12)
    windgusts_10m := List.replicate 24 (some 15)
    cloudcover := List.replicate 24 (some 30)
    precipitation_probability := List.replicate 24 (some 5)
    visibility := List.replicate 24 (some 10000) }

/-! ## `updateRecommendations` -/

/-- One paragraph `<p class="..."><i class="..."></i> text</p>` of the
recommendation list. -/
structure Recommendation where
  cls : String
  icon : String
  text : String
  deriving DecidableEq, Repr

/-- The function `updateRecommendations` (lines 636-664), for a page that has
the element `recommendations-list`.  The string `html` is modelled by the list
of its paragraphs; the result is what is assigned to `innerHTML`. -/
def updateRecommendations (conditions : Conditions) : List Recommendation :=
  let html : List Recommendation := []
  let html := conditions.dangers.foldl (fun html danger =>
    push html
      { cls := "recommendation negative", icon := "fas fa-times-circle", text := danger }) html
  let html := conditions.warnings.foldl (fun html warning =>
    push html
      { cls := "recommendation warning", icon := "fas fa-exclamation-triangle",
        text := warning }) html
  if conditions.safe = true ∧ conditions.warnings.length = 0 ∧ conditions.dangers.length = 0 then
    [ { cls := "recommendation positive", icon := "fas fa-check",
        text := "Condiciones óptimas para vuelo" },
      { cls := "recommendation positive", icon := "fas fa-check",
        text := "Viento dentro de límites seguros" },
      { cls := "recommendation positive", icon := "fas fa-check",
        text := "Buena visibilidad" },
      { cls := "recommendation positive", icon := "fas fa-check",
        text := "Temperatura adecuada" } ]
  else if conditions.safe = true then
    push html
      { cls := "recommendation positive", icon := "fas fa-check",
        text := "Vuelo posible con precauciones" }
  else html

/-- The four affirmations shown when nothing is reported. -/
def positiveAffirmations : List String :=
  ["Condiciones óptimas para vuelo", "Viento dentro de límites seguros",
    "Buena visibilidad", "Temperatura adecuada"]

/-- The exact arithmetic mean of a list of numbers. -/
def exactMean (xs : List ℚ) : ℚ := xs.sum / xs.length

/-- The mean of line 335 on finite entries when nothing overflows: the entries
are added to 0 from left to right and the sum is divided by their number, every
operation being rounded to a double (`jsMean_fin` relates it to `jsMean`). -/
def doubleMean (xs : List ℚ) : ℚ := fdiv (xs.foldl fadd 0) xs.length

/-- The largest finite double, `(2^53 - 1) * 2^971`. -/
def maxDouble : ℚ := (2 ^ 53 - 1) * 2 ^ 971

/-- The numbers for which neither overflow nor underflow occurs when up to three
of them are added and the sum divided by their count: zero, and the numbers
between `2^-1000` and `2^1000`. -/
def InRange (v : ℚ) : Prop := v = 0 ∨ (1 / 2 ^ 1000 ≤ v ∧ v ≤ 2 ^ 1000)

instance (v : ℚ) : Decidable (InRange v) := by
  unfold InRange
  infer_instance

/-! # Theorems -/

/-! ## Each block only appends -/

theorem temperatura_app (data : HourData) (c : Conditions) :
    temperatura data c = c.app (temperatura data Conditions.init) := by
  unfold temperatura
  split_ifs <;> simp [Conditions.app, Conditions.init, push]

theorem viento_app (data : HourData) (c : Conditions) :
    viento data c = c.app (viento data Conditions.init) := by
  unfold viento
  split_ifs <;> simp [Conditions.app, Conditions.init, push]

theorem rafagas_app (data : HourData) (c : Conditions) :
    rafagas data c = c.app (rafagas data Conditions.init) := by
  unfold rafagas
  split_ifs <;> simp [Conditions.app, Conditions.init, push]

theorem lluvia_app (data : HourData) (c : Conditions) :
    lluvia data c = c.app (lluvia data Conditions.init) := by
  unfold lluvia
  split_ifs <;> simp [Conditions.app, Conditions.init, push]

theorem nubes_app (data : HourData) (c : Conditions) :
    nubes data c = c.app (nubes data Conditions.init) := by
  unfold nubes
  split_ifs <;> simp [Conditions.app, Conditions.init, push]

theorem visibilidad_app (data : HourData) (c : Conditions) :
    visibilidad data c = c.app (visibilidad data Conditions.init) := by
  unfold visibilidad
  split_ifs <;> simp [Conditions.app, Conditions.init, push]

theorem indiceKp_app (state : State) (c : Conditions) :
    indiceKp state c = c.app (indiceKp state Conditions.init) := by
  unfold indiceKp
  split_ifs <;> simp [Conditions.app, Conditions.init, push]

theorem Conditions.init_app (x : Conditions) : Conditions.init.app x = x := by
  simp [Conditions.app, Conditions.init]

/-- The verdict is the concatenation of the seven blocks, in dimension order. -/
theorem evaluateConditions_eq (state : State) (data : HourData) :
    evaluateConditions state data =
      ((((((block state data .temperature).app (block state data .wind)).app
        (block state data .gusts)).app (block state data .rain)).app
        (block state data .clouds)).app (block state data .visibility)).app
        (block state data .geomagnetic) := by
  simp only [evaluateConditions, block]
  rw [indiceKp_app, visibilidad_app, nubes_app, lluvia_app, rafagas_app, viento_app]

/-! ## What one block contributes -/

theorem block_ok (state : State) (data : HourData) (dim : Dimension) :
    BlockOK state data dim (block state data dim) := by
  cases dim
  · simp only [block, temperatura]
    split_ifs
    · right; exact ⟨_, rfl, rfl, Or.inl ⟨rfl, _, rfl, rfl, rfl, rfl⟩⟩
    · right; exact ⟨_, rfl, rfl, Or.inl ⟨rfl, _, rfl, rfl, rfl, rfl⟩⟩
    · right; exact ⟨_, rfl, rfl, Or.inr (Or.inl ⟨rfl, _, rfl, rfl, rfl, rfl⟩)⟩
    · left; rfl
  · simp only [block, viento]
    split_ifs
    · right; exact ⟨_, rfl, rfl, Or.inl ⟨rfl, _, rfl, rfl, rfl, rfl⟩⟩
    · right; exact ⟨_, rfl, rfl, Or.inr (Or.inl ⟨rfl, _, rfl, rfl, rfl, rfl⟩)⟩
    · left; rfl
  · simp only [block, rafagas]
    split_ifs
    · right; exact ⟨_, rfl, rfl, Or.inl ⟨rfl, _, rfl, rfl, rfl, rfl⟩⟩
    · right; exact ⟨_, rfl, rfl, Or.inr (Or.inl ⟨rfl, _, rfl, rfl, rfl, rfl⟩)⟩
    · left; rfl
  · simp only [block, lluvia]
    split_ifs
    · right; exact ⟨_, rfl, rfl, Or.inl ⟨rfl, _, rfl, rfl, rfl, rfl⟩⟩
    · right; exact ⟨_, rfl, rfl, Or.inr (Or.inl ⟨rfl, _, rfl, rfl, rfl, rfl⟩)⟩
    · left; rfl
  · simp only [block, nubes]
    split_ifs
    · right; exact ⟨_, rfl, rfl, Or.inr (Or.inl ⟨rfl, _, rfl, rfl, rfl, rfl⟩)⟩
    · left; rfl
  · simp only [block, visibilidad]
    split_ifs
    · right; exact ⟨_, rfl, rfl, Or.inl ⟨rfl, _, rfl, rfl, rfl, rfl⟩⟩
    · right; exact ⟨_, rfl, rfl, Or.inr (Or.inl ⟨rfl, _, rfl, rfl, rfl, rfl⟩)⟩
    · left; rfl
  · simp only [block, indiceKp]
    split_ifs
    · right; exact ⟨_, rfl, rfl, Or.inl ⟨rfl, _, rfl, rfl, rfl, rfl⟩⟩
    · right; exact ⟨_, rfl, rfl, Or.inr (Or.inl ⟨rfl, _, rfl, rfl, rfl, rfl⟩)⟩
    · right; exact ⟨_, rfl, rfl, Or.inr (Or.inr ⟨rfl, rfl, rfl, rfl⟩)⟩
    · left; rfl

/-! ## The invariant of the verdict under construction -/

theorem Inv.init (state : State) (data : HourData) :
    Inv state data 0 Conditions.init := by
  simp [Inv, Conditions.init]

theorem Inv.app {state : State} {data : HourData} {n : Nat} {c x : Conditions}
    {dim : Dimension} (hc : Inv state data n c) (hx : BlockOK state data dim x)
    (hn : n ≤ dim.rank) : Inv state data (dim.rank + 1) (c.app x) := by
  obtain ⟨h1, h2, h3, h4, h5, h6⟩ := hc
  have h5' : ∀ d ∈ c.details, ∃ dim', dimensionOf d = some dim' ∧ dim'.rank < dim.rank + 1 := by
    intro d hd
    obtain ⟨i, hi, hlt⟩ := h5 d hd
    exact ⟨i, hi, by omega⟩
  rcases hx with rfl | ⟨d, hd, hdim, hty⟩
  · refine ⟨?_, ?_, ?_, ?_, ?_, ?_⟩
    · simpa [Conditions.app, Conditions.init] using h1
    · simpa [Conditions.app, Conditions.init] using h2
    · simpa [Conditions.app, Conditions.init] using h3
    · simpa [Conditions.app, Conditions.init] using h4
    · simpa [Conditions.app, Conditions.init] using h5'
    · simp only [Conditions.app, Conditions.init, List.append_nil]; omega
  · have hpw : (c.details ++ [d]).Pairwise precedes := by
      rw [List.pairwise_append]
      refine ⟨h4, List.pairwise_singleton _ _, ?_⟩
      intro a ha b hb
      obtain ⟨i, hi, hlt⟩ := h5 a ha
      rw [List.mem_singleton] at hb
      subst hb
      exact ⟨i, dim, hi, hdim, by omega⟩
    have hall : ∀ e ∈ c.details ++ [d],
        ∃ dim', dimensionOf e = some dim' ∧ dim'.rank < dim.rank + 1 := by
      intro e he
      rw [List.mem_append, List.mem_singleton] at he
      rcases he with he | rfl
      · exact h5' e he
      · exact ⟨dim, hdim, by omega⟩
    have hlen : (c.app x).details.length ≤ dim.rank + 1 := by
      simp only [Conditions.app, hd, List.length_append, List.length_singleton]; omega
    rcases hty with ⟨ht, s, hs, hD, hW, hS⟩ | ⟨ht, s, hs, hD, hW, hS⟩ | ⟨ht, hD, hW, hS⟩
    · refine ⟨?_, ?_, ?_, ?_, ?_, ?_⟩
      · simp [Conditions.app, hD, hS]
      · simp [Conditions.app, hD, hd, List.filter_append, ht, h2, hs]
      · simp [Conditions.app, hW, hd, List.filter_append, ht, h3]
      · simpa [Conditions.app, hd] using hpw
      · simpa [Conditions.app, hd] using hall
      · exact hlen
    · refine ⟨?_, ?_, ?_, ?_, ?_, ?_⟩
      · simpa [Conditions.app, hD, hS] using h1
      · simp [Conditions.app, hD, hd, List.filter_append, ht, h2]
      · simp [Conditions.app, hW, hd, List.filter_append, ht, h3, hs]
      · simpa [Conditions.app, hd] using hpw
      · simpa [Conditions.app, hd] using hall
      · exact hlen
    · refine ⟨?_, ?_, ?_, ?_, ?_, ?_⟩
      · simpa [Conditions.app, hD, hS] using h1
      · simp [Conditions.app, hD, hd, List.filter_append, ht, h2]
      · simp [Conditions.app, hW, hd, List.filter_append, ht, h3]
      · simpa [Conditions.app, hd] using hpw
      · simpa [Conditions.app, hd] using hall
      · exact hlen

/-- The invariant holds of the verdict returned by `evaluateConditions`. -/
theorem evaluateConditions_inv (state : State) (data : HourData) :
    Inv state data 7 (evaluateConditions state data) := by
  rw [evaluateConditions_eq]
  have h0 := Inv.init state data
  have h1 : Inv state data 1 (block state data .temperature) := by
    have := Inv.app h0 (block_ok state data .temperature) (Nat.zero_le _)
    rwa [Conditions.init_app] at this
  have h2 := Inv.app h1 (block_ok state data .wind) (le_refl _)
  have h3 := Inv.app h2 (block_ok state data .gusts) (le_refl _)
  have h4 := Inv.app h3 (block_ok state data .rain) (le_refl _)
  have h5 := Inv.app h4 (block_ok state data .clouds) (le_refl _)
  have h6 := Inv.app h5 (block_ok state data .visibility) (le_refl _)
  exact Inv.app h6 (block_ok state data .geomagnetic) (le_refl _)

/-! ## The details of one dimension are those of its block -/

theorem block_details_filter (state : State) (data : HourData) (i dim : Dimension) :
    (block state data i).details.filter (fun d => dimensionOf d = some dim) =
      if i = dim then (block state data i).details else [] := by
  rcases block_ok state data i with h | ⟨d, hd, hdim, -⟩
  · simp [h, Conditions.init]
  · by_cases hi : i = dim
    · subst hi
      simp [hd, hdim]
    · simp [hd, hdim, hi]

theorem detailsOf_evaluateConditions (state : State) (data : HourData) (dim : Dimension) :
    detailsOf dim (evaluateConditions state data) = (block state data dim).details := by
  simp only [detailsOf, evaluateConditions_eq, Conditions.app, List.filter_append,
    block_details_filter]
  cases dim <;> simp

theorem block_details_length (state : State) (data : HourData) (dim : Dimension) :
    (block state data dim).details.length ≤ 1 := by
  rcases block_ok state data dim with h | ⟨d, hd, -⟩
  · simp [h, Conditions.init]
  · simp [hd]

theorem evaluateConditions_safe (state : State) (data : HourData) :
    (evaluateConditions state data).safe =
      ((block state data .temperature).safe && (block state data .wind).safe &&
        (block state data .gusts).safe && (block state data .rain).safe &&
        (block state data .clouds).safe && (block state data .visibility).safe &&
        (block state data .geomagnetic).safe) := by
  simp only [evaluateConditions_eq, Conditions.app]

theorem evaluateConditions_dangers (state : State) (data : HourData) :
    (evaluateConditions state data).dangers =
      (block state data .temperature).dangers ++ (block state data .wind).dangers ++
        (block state data .gusts).dangers ++ (block state data .rain).dangers ++
        (block state data .clouds).dangers ++ (block state data .visibility).dangers ++
        (block state data .geomagnetic).dangers := by
  simp only [evaluateConditions_eq, Conditions.app]

theorem evaluateConditions_warnings (state : State) (data : HourData) :
    (evaluateConditions state data).warnings =
      (block state data .temperature).warnings ++ (block state data .wind).warnings ++
        (block state data .gusts).warnings ++ (block state data .rain).warnings ++
        (block state data .clouds).warnings ++ (block state data .visibility).warnings ++
        (block state data .geomagnetic).warnings := by
  simp only [evaluateConditions_eq, Conditions.app]

/-! ## Invariants of the verdict (C1, C2, C3) -/

/-- C1: for every hourly sample and every Kp value, the verdict of
`evaluateConditions` has `safe = true` if and only if its `dangers` list is empty. -/
theorem safe_iff_dangers_empty (state : State) (data : HourData) :
    (evaluateConditions state data).safe = true ↔
      (evaluateConditions state data).dangers = [] :=
  (evaluateConditions_inv state data).1

/-- C2: for every hourly sample and every Kp value, `dangers` is exactly the
sequence of short messages of the details of type 'danger' and `warnings` the
sequence of short messages of the details of type 'warning', in the order of
`details`; so the lengths are the per-type counts of `details`, and a detail of
type 'safe' contributes to neither list. -/
theorem messages_are_short_forms (state : State) (data : HourData) :
    ((evaluateConditions state data).dangers.map some =
        ((evaluateConditions state data).details.filter
          (fun d => d.type = .danger)).map (shortForm state data)) ∧
    ((evaluateConditions state data).warnings.map some =
        ((evaluateConditions state data).details.filter
          (fun d => d.type = .warning)).map (shortForm state data)) ∧
    (evaluateConditions state data).dangers.length =
        ((evaluateConditions state data).details.filter
          (fun d => d.type = .danger)).length ∧
    (evaluateConditions state data).warnings.length =
        ((evaluateConditions state data).details.filter
          (fun d => d.type = .warning)).length := by
  obtain ⟨-, h2, h3, -⟩ := evaluateConditions_inv state data
  refine ⟨h2, h3, ?_, ?_⟩
  · simpa using congrArg List.length h2
  · simpa using congrArg List.length h3

/-- C3: for every hourly sample and every Kp value, the details are strictly
increasing in the dimension order temperature, wind, gusts, rain, clouds,
visibility, geomagnetic (every detail has a dimension, and of two details the
earlier one has the smaller rank); hence each dimension has at most one detail
and there are at most 7 details. -/
theorem details_strictly_ordered (state : State) (data : HourData) :
    (evaluateConditions state data).details.Pairwise precedes ∧
    (∀ d ∈ (evaluateConditions state data).details, ∃ dim, dimensionOf d = some dim) ∧
    (∀ dim, (detailsOf dim (evaluateConditions state data)).length ≤ 1) ∧
    (evaluateConditions state data).details.length ≤ 7 := by
  obtain ⟨-, -, -, h4, h5, h6⟩ := evaluateConditions_inv state data
  refine ⟨h4, ?_, ?_, h6⟩
  · intro d hd
    obtain ⟨dim, hdim, -⟩ := h5 d hd
    exact ⟨dim, hdim⟩
  · intro dim
    rw [detailsOf_evaluateConditions]
    exact block_details_length state data dim

/-! ## Readings in the no-detail band leave the verdict untouched -/

theorem temperatura_none (data : HourData) (c : Conditions)
    (h1 : 5 ≤ data.temp) (h2 : data.temp ≤ 35) : temperatura data c = c := by
  have a1 : ¬ data.temp < 0 := not_lt.mpr (by linarith)
  have a2 : ¬ data.temp > 40 := not_lt.mpr (by linarith)
  have a3 : ¬ data.temp < 5 := not_lt.mpr h1
  have a4 : ¬ data.temp > 35 := not_lt.mpr h2
  simp [temperatura, config.limits, a1, a2, a3, a4]

theorem viento_none (data : HourData) (c : Conditions)
    (h : data.wind ≤ 0.7 * 29) : viento data c = c := by
  have a1 : ¬ data.wind > 29 := not_lt.mpr (by linarith)
  have a2 : ¬ data.wind > 29 * 0.7 := not_lt.mpr (by linarith)
  simp [viento, config.limits, a1, a2]

theorem rafagas_none (data : HourData) (c : Conditions)
    (h : data.gusts ≤ 0.7 * 38) : rafagas data c = c := by
  have a1 : ¬ data.gusts > 38 := not_lt.mpr (by linarith)
  have a2 : ¬ data.gusts > 38 * 0.7 := not_lt.mpr (by linarith)
  simp [rafagas, config.limits, a1, a2]

theorem lluvia_none (data : HourData) (c : Conditions)
    (h : data.rain ≤ 0) : lluvia data c = c := by
  have a1 : ¬ data.rain > 20 := not_lt.mpr (by linarith)
  have a2 : ¬ data.rain > 0 := not_lt.mpr h
  simp [lluvia, config.limits, a1, a2]

theorem nubes_none (data : HourData) (c : Conditions)
    (h : data.clouds ≤ 70) : nubes data c = c := by
  have a1 : ¬ data.clouds > 70 := not_lt.mpr h
  simp [nubes, config.limits, a1]

theorem visibilidad_none (data : HourData) (c : Conditions)
    (h : 5 ≤ data.visibility) : visibilidad data c = c := by
  have a1 : ¬ data.visibility < 3 := not_lt.mpr (by linarith)
  have a2 : ¬ data.visibility < 5 := not_lt.mpr h
  simp [visibilidad, config.limits, a1, a2]

theorem indiceKp_none (state : State) (c : Conditions)
    (h : state.kpIndex ≤ 2) : indiceKp state c = c := by
  have a1 : ¬ state.kpIndex > 6 := not_lt.mpr (by linarith)
  have a2 : ¬ state.kpIndex > 4 := not_lt.mpr (by linarith)
  have a3 : ¬ state.kpIndex > 2 := not_lt.mpr h
  simp [indiceKp, a1, a2, a3]

/-! ## All-clear verdict (C4) -/

/-- C4: when every measurement lies in the no-detail band of its dimension
(5 ≤ temp ≤ 35, wind ≤ 0.7*29, gusts ≤ 0.7*38, rain ≤ 0, clouds ≤ 70,
visibility ≥ 5) and Kp ≤ 2, `evaluateConditions` returns `safe = true` with
empty dangers, warnings and details. -/
theorem all_clear (state : State) (data : HourData)
    (ht1 : 5 ≤ data.temp) (ht2 : data.temp ≤ 35) (hw : data.wind ≤ 0.7 * 29)
    (hg : data.gusts ≤ 0.7 * 38) (hr : data.rain ≤ 0) (hc : data.clouds ≤ 70)
    (hv : data.visibility ≥ 5) (hk : state.kpIndex ≤ 2) :
    evaluateConditions state data =
      { safe := true, warnings := [], dangers := [], details := [] } := by
  simp only [evaluateConditions, temperatura_none data _ ht1 ht2, viento_none data _ hw,
    rafagas_none data _ hg, lluvia_none data _ hr, nubes_none data _ hc,
    visibilidad_none data _ hv, indiceKp_none state _ hk, Conditions.init]

/-- C4, witness: the sample temp=20, wind=10, gusts=12, rain=0, clouds=10,
visibility=10 with Kp=1 is in the all-clear band. -/
theorem all_clear_witness :
    evaluateConditions { kpIndex := 1, kpStatus := "bajo" }
        { temp := 20, wind := 10, gusts := 12, clouds := 10, rain := 0, visibility := 10 } =
      { safe := true, warnings := [], dangers := [], details := [] } :=
  all_clear { kpIndex := 1, kpStatus := "bajo" }
    { temp := 20, wind := 10, gusts := 12, clouds := 10, rain := 0, visibility := 10 }
    (by norm_num) (by norm_num) (by norm_num) (by norm_num) (by norm_num) (by norm_num)
    (by norm_num) (by norm_num)

/-! ## The wind dimension (C5, C7) -/

theorem wind_details (state : State) (data : HourData) :
    detailsOf .wind (evaluateConditions state data) =
      (viento data Conditions.init).details :=
  detailsOf_evaluateConditions state data .wind

theorem wind_severity (state : State) (data : HourData) :
    severity .wind (evaluateConditions state data) =
      if data.wind > 29 then 2 else if data.wind > 29 * 0.7 then 1 else 0 := by
  simp only [severity, hasDetail, wind_details, viento, config.limits]
  split_ifs <;> simp_all [Conditions.init, push]

/-- C5, as the code has it: with the wind limit 29 km/h, a sample whose wind is
exactly 29 has no wind danger detail, and its only wind detail is the warning
titled 'Viento moderado' (29 exceeds 0.7 * 29); a sample whose wind is 29.01
has a wind detail of type danger (the one titled 'Viento excesivo').  The other
measurements and the Kp value are arbitrary. -/
theorem wind_boundary (state : State) (data : HourData) :
    config.limits.wind = 29 ∧
    hasDetail .danger .wind (evaluateConditions state { data with wind := 29 }) = false ∧
    (∃ d, detailsOf .wind (evaluateConditions state { data with wind := 29 }) = [d] ∧
      d.type = .warning ∧ d.title = "Viento moderado") ∧
    ∃ d, detailsOf .wind (evaluateConditions state { data with wind := 29.01 }) = [d] ∧
      d.type = .danger ∧ d.title = "Viento excesivo" := by
  refine ⟨rfl, ?_, ?_, ?_⟩
  · rw [hasDetail, wind_details]
    norm_num [viento, config.limits, Conditions.init, push]
    decide
  · rw [wind_details]
    norm_num [viento, config.limits, Conditions.init, push]
  · rw [wind_details]
    norm_num [viento, config.limits, Conditions.init, push]

/-- C5, counterexample to the claim as written: the sample temp=20, wind=29,
gusts=12, clouds=10, rain=0, visibility=10 with Kp=2 does have a wind detail,
a warning, so "no wind detail at all" fails at wind = 29. -/
theorem wind_boundary_counterexample :
    detailsOf .wind (evaluateConditions state
      { temp := 20, wind := 29, gusts := 12, clouds := 10, rain := 0, visibility := 10 }) ≠ [] ∧
    hasDetail .warning .wind (evaluateConditions state
      { temp := 20, wind := 29, gusts := 12, clouds := 10, rain := 0, visibility := 10 }) = true ∧
    (evaluateConditions state
      { temp := 20, wind := 29, gusts := 12, clouds := 10, rain := 0, visibility := 10 }).warnings =
      ["Viento moderado (29 km/h)"] := by
  refine ⟨?_, ?_, ?_⟩
  · rw [wind_details]
    norm_num [viento, config.limits, Conditions.init, push]
  · rw [hasDetail, wind_details]
    norm_num [viento, config.limits, Conditions.init, push]
  · norm_num [evaluateConditions, temperatura, viento, rafagas, lluvia, nubes, visibilidad,
      indiceKp, config.limits, Conditions.init, push, state]
    rfl

/-- C7: wind severity (none < warning < danger) is monotone in the wind reading:
for two samples that differ only in wind, with `w1 ≤ w2`, the severity at `w2`
is at least the severity at `w1`; and once `w1` exceeds the limit 29 the wind
detail is a danger at `w1` and at every larger `w2`. -/
theorem wind_severity_monotone (state : State) (data : HourData) (w1 w2 : ℚ)
    (h : w1 ≤ w2) :
    severity .wind (evaluateConditions state { data with wind := w1 }) ≤
      severity .wind (evaluateConditions state { data with wind := w2 }) ∧
    (w1 > config.limits.wind →
      severity .wind (evaluateConditions state { data with wind := w1 }) = 2 ∧
      severity .wind (evaluateConditions state { data with wind := w2 }) = 2) := by
  simp only [wind_severity, config.limits]
  constructor
  · split_ifs <;> first | omega | (exfalso; linarith)
  · intro h1
    have h2 : w2 > 29 := lt_of_lt_of_le h1 h
    simp [h1, h2]

/-- C7, witness: going from wind 28 to wind 30 (limit 29) raises the wind
severity from warning to danger. -/
theorem wind_severity_monotone_witness :
    ((28 : ℚ) ≤ 30) ∧
    severity .wind (evaluateConditions state
      { temp := 20, wind := 28, gusts := 12, clouds := 10, rain := 0, visibility := 10 }) = 1 ∧
    severity .wind (evaluateConditions state
      { temp := 20, wind := 30, gusts := 12, clouds := 10, rain := 0, visibility := 10 }) = 2 ∧
    severity .wind (evaluateConditions state
      { temp := 20, wind := 28, gusts := 12, clouds := 10, rain := 0, visibility := 10 }) ≤
    severity .wind (evaluateConditions state
      { temp := 20, wind := 30, gusts := 12, clouds := 10, rain := 0, visibility := 10 }) := by
  have h := wind_severity_monotone state
    { temp := 20, wind := 0, gusts := 12, clouds := 10, rain := 0, visibility := 10 }
    28 30 (by norm_num)
  refine ⟨by norm_num, ?_, ?_, h.1⟩
  · rw [wind_severity]; norm_num
  · rw [wind_severity]; norm_num

/-! ## Strict thresholds (C6) -/

theorem hasDetail_evaluateConditions (state : State) (data : HourData)
    (t : DetailType) (dim : Dimension) :
    hasDetail t dim (evaluateConditions state data) =
      (block state data dim).details.any (fun d => d.type = t) := by
  rw [hasDetail, detailsOf_evaluateConditions]

/-- C6: every threshold comparison of `evaluateConditions` is strict.  A reading
equal to a danger threshold (temp = 0, temp = 40, wind = 29, gusts = 38,
rain = 20, visibility = 3, Kp = 6) gives no danger detail for its dimension, and
a reading equal to a warning threshold (temp = 5, temp = 35, wind = 0.7*29,
gusts = 0.7*38, rain = 0, clouds = 70, visibility = 5, Kp = 4) gives no warning
detail for its dimension; the other measurements and the Kp value are arbitrary. -/
theorem thresholds_strict (state : State) (data : HourData) :
    (config.limits.tempMin = 0 ∧ config.limits.tempMax = 40 ∧ config.limits.wind = 29 ∧
      config.limits.gusts = 38 ∧ config.limits.rain = 20 ∧ config.limits.clouds = 70 ∧
      config.limits.visibility = 3) ∧
    hasDetail .danger .temperature (evaluateConditions state { data with temp := 0 }) = false ∧
    hasDetail .danger .temperature (evaluateConditions state { data with temp := 40 }) = false ∧
    hasDetail .danger .wind (evaluateConditions state { data with wind := 29 }) = false ∧
    hasDetail .danger .gusts (evaluateConditions state { data with gusts := 38 }) = false ∧
    hasDetail .danger .rain (evaluateConditions state { data with rain := 20 }) = false ∧
    hasDetail .danger .visibility
      (evaluateConditions state { data with visibility := 3 }) = false ∧
    hasDetail .danger .geomagnetic
      (evaluateConditions { state with kpIndex := 6 } data) = false ∧
    hasDetail .warning .temperature (evaluateConditions state { data with temp := 5 }) = false ∧
    hasDetail .warning .temperature (evaluateConditions state { data with temp := 35 }) = false ∧
    hasDetail .warning .wind (evaluateConditions state { data with wind := 0.7 * 29 }) = false ∧
    hasDetail .warning .gusts (evaluateConditions state { data with gusts := 0.7 * 38 }) = false ∧
    hasDetail .warning .rain (evaluateConditions state { data with rain := 0 }) = false ∧
    hasDetail .warning .clouds (evaluateConditions state { data with clouds := 70 }) = false ∧
    hasDetail .warning .visibility
      (evaluateConditions state { data with visibility := 5 }) = false ∧
    hasDetail .warning .geomagnetic
      (evaluateConditions { state with kpIndex := 4 } data) = false := by
  refine ⟨⟨rfl, rfl, rfl, rfl, rfl, rfl, rfl⟩,
    ?_, ?_, ?_, ?_, ?_, ?_, ?_, ?_, ?_, ?_, ?_, ?_, ?_, ?_, ?_⟩ <;>
    rw [hasDetail_evaluateConditions] <;>
    norm_num [block, temperatura, viento, rafagas, lluvia, nubes, visibilidad, indiceKp,
      config.limits, Conditions.init, push] <;>
    decide

/-! ## The geomagnetic dimension (C8) -/

theorem evaluateConditions_weatherVerdict (state : State) (data : HourData) :
    evaluateConditions state data = indiceKp state (weatherVerdict data) := rfl

theorem geomagnetic_details (state : State) (data : HourData) :
    detailsOf .geomagnetic (evaluateConditions state data) =
      (indiceKp state Conditions.init).details :=
  detailsOf_evaluateConditions state data .geomagnetic

/-- C8: the geomagnetic bands of `evaluateConditions`, for every Kp value `k`
and every sample.  `k > 6`: one geomagnetic detail, of type danger, `safe` is
false and the message 'Alta actividad geomagnética (Kp=k)' is appended to the
dangers.  `4 < k ≤ 6`: one geomagnetic detail, of type warning, with its message
appended to the warnings.  `2 < k ≤ 4`: one geomagnetic detail, of type 'safe';
dangers, warnings and `safe` are those of the weather blocks.  `k ≤ 2`: no
geomagnetic detail, the verdict is that of the weather blocks. -/
theorem geomagnetic_bands (state : State) (data : HourData) :
    (state.kpIndex > 6 →
      (∃ d, detailsOf .geomagnetic (evaluateConditions state data) = [d] ∧
        d.type = .danger) ∧
      (evaluateConditions state data).safe = false ∧
      (evaluateConditions state data).dangers = (weatherVerdict data).dangers ++
        ["Alta actividad geomagnética" ++ (" (Kp=" ++ toFixed1 state.kpIndex ++ ")")] ∧
      (evaluateConditions state data).warnings = (weatherVerdict data).warnings) ∧
    (4 < state.kpIndex ∧ state.kpIndex ≤ 6 →
      (∃ d, detailsOf .geomagnetic (evaluateConditions state data) = [d] ∧
        d.type = .warning) ∧
      (evaluateConditions state data).safe = (weatherVerdict data).safe ∧
      (evaluateConditions state data).dangers = (weatherVerdict data).dangers ∧
      (evaluateConditions state data).warnings = (weatherVerdict data).warnings ++
        ["Actividad geomagnética moderada (Kp=" ++ toFixed1 state.kpIndex ++ ")"]) ∧
    (2 < state.kpIndex ∧ state.kpIndex ≤ 4 →
      (∃ d, detailsOf .geomagnetic (evaluateConditions state data) = [d] ∧
        d.type = .safe) ∧
      (evaluateConditions state data).safe = (weatherVerdict data).safe ∧
      (evaluateConditions state data).dangers = (weatherVerdict data).dangers ∧
      (evaluateConditions state data).warnings = (weatherVerdict data).warnings) ∧
    (state.kpIndex ≤ 2 →
      detailsOf .geomagnetic (evaluateConditions state data) = [] ∧
      evaluateConditions state data = weatherVerdict data) := by
  have happ : "Alta actividad geomagnética" ++ (" (Kp=" ++ toFixed1 state.kpIndex ++ ")") =
      "Alta actividad geomagnética (Kp=" ++ toFixed1 state.kpIndex ++ ")" := by
    rw [← String.append_assoc, ← String.append_assoc]
    rfl
  rw [happ, geomagnetic_details, evaluateConditions_weatherVerdict]
  refine ⟨?_, ?_, ?_, ?_⟩
  · intro h
    simp [indiceKp, h, Conditions.init, push]
  · rintro ⟨h1, h2⟩
    have a1 : ¬ state.kpIndex > 6 := not_lt.mpr h2
    simp [indiceKp, a1, h1, Conditions.init, push]
  · rintro ⟨h1, h2⟩
    have a1 : ¬ state.kpIndex > 6 := not_lt.mpr (by linarith)
    have a2 : ¬ state.kpIndex > 4 := not_lt.mpr h2
    simp [indiceKp, a1, a2, h1, Conditions.init, push]
  · intro h
    simp [indiceKp_none state _ h, Conditions.init]

/-- C8, witnesses: on the sample temp=20, wind=10, gusts=12, clouds=10, rain=0,
visibility=10, Kp = 7.0 gives the single danger 'Alta actividad geomagnética
(Kp=7.0)' and `safe = false`, Kp = 5.0 a warning and `safe = true`, Kp = 3.5 one
detail of type 'safe' with `safe = true` and no message, Kp = 1.0 no detail. -/
theorem geomagnetic_bands_witness :
    ((7 : ℚ) > 6 ∧
      (evaluateConditions { kpIndex := 7, kpStatus := "alto" }
        { temp := 20, wind := 10, gusts := 12, clouds := 10, rain := 0, visibility := 10 }).safe
        = false ∧
      (evaluateConditions { kpIndex := 7, kpStatus := "alto" }
        { temp := 20, wind := 10, gusts := 12, clouds := 10, rain := 0, visibility := 10 }).dangers
        = ["Alta actividad geomagnética (Kp=7.0)"]) ∧
    (((4 : ℚ) < 5 ∧ (5 : ℚ) ≤ 6) ∧
      (evaluateConditions { kpIndex := 5, kpStatus := "moderado" }
        { temp := 20, wind := 10, gusts := 12, clouds := 10, rain := 0, visibility := 10 }).safe
        = true ∧
      (evaluateConditions { kpIndex := 5, kpStatus := "moderado" }
        { temp := 20, wind := 10, gusts := 12, clouds := 10, rain := 0, visibility := 10 }).warnings
        = ["Actividad geomagnética moderada (Kp=5.0)"]) ∧
    (((2 : ℚ) < 3.5 ∧ (3.5 : ℚ) ≤ 4) ∧
      (∃ d, detailsOf .geomagnetic (evaluateConditions { kpIndex := 3.5, kpStatus := "moderado" }
        { temp := 20, wind := 10, gusts := 12, clouds := 10, rain := 0, visibility := 10 }) = [d] ∧
        d.type = .safe) ∧
      (evaluateConditions { kpIndex := 3.5, kpStatus := "moderado" }
        { temp := 20, wind := 10, gusts := 12, clouds := 10, rain := 0, visibility := 10 }).safe
        = true) ∧
    ((1 : ℚ) ≤ 2 ∧
      detailsOf .geomagnetic (evaluateConditions { kpIndex := 1, kpStatus := "bajo" }
        { temp := 20, wind := 10, gusts := 12, clouds := 10, rain := 0, visibility := 10 }) = []) := by
  have hW : weatherVerdict
      { temp := 20, wind := 10, gusts := 12, clouds := 10, rain := 0, visibility := 10 } =
      Conditions.init := by
    norm_num [weatherVerdict, temperatura, viento, rafagas, lluvia, nubes, visibilidad,
      config.limits]
  have h7 := (geomagnetic_bands { kpIndex := 7, kpStatus := "alto" }
    { temp := 20, wind := 10, gusts := 12, clouds := 10, rain := 0, visibility := 10 }).1
    (by norm_num)
  have h5 := (geomagnetic_bands { kpIndex := 5, kpStatus := "moderado" }
    { temp := 20, wind := 10, gusts := 12, clouds := 10, rain := 0, visibility := 10 }).2.1
    (by norm_num)
  have h3 := (geomagnetic_bands { kpIndex := 3.5, kpStatus := "moderado" }
    { temp := 20, wind := 10, gusts := 12, clouds := 10, rain := 0, visibility := 10 }).2.2.1
    (by norm_num)
  have h1 := (geomagnetic_bands { kpIndex := 1, kpStatus := "bajo" }
    { temp := 20, wind := 10, gusts := 12, clouds := 10, rain := 0, visibility := 10 }).2.2.2
    (by norm_num)
  rw [hW] at h7 h5 h3
  refine ⟨⟨by norm_num, h7.2.1, ?_⟩, ⟨by norm_num, ?_, ?_⟩, ⟨by norm_num, h3.1, ?_⟩,
    ⟨by norm_num, h1.1⟩⟩
  · rw [h7.2.2.1]; rfl
  · rw [h5.2.1]; rfl
  · rw [h5.2.2.2]; rfl
  · rw [h3.2.1]; rfl

/-! ## High temperature alone (C9) -/

/-- C9: for every sample with temp > 40 whose other measurements are in their
no-detail bands and every Kp ≤ 2, `evaluateConditions` returns `safe = false`,
no warnings, and exactly one danger, the high-temperature message
'Temperatura muy alta (temp°C)'; the single detail is the one titled
'Temperatura alta'. -/
theorem high_temperature (state : State) (data : HourData)
    (ht : data.temp > 40) (hw : data.wind ≤ 0.7 * 29) (hg : data.gusts ≤ 0.7 * 38)
    (hr : data.rain ≤ 0) (hc : data.clouds ≤ 70) (hv : data.visibility ≥ 5)
    (hk : state.kpIndex ≤ 2) :
    (evaluateConditions state data).safe = false ∧
    (evaluateConditions state data).warnings = [] ∧
    (evaluateConditions state data).dangers =
      ["Temperatura muy alta (" ++ numToString data.temp ++ "°C)"] ∧
    (evaluateConditions state data).dangers.length = 1 ∧
    (evaluateConditions state data).details.map (fun d => (d.type, d.title)) =
      [(.danger, "Temperatura alta")] := by
  have a1 : ¬ data.temp < 0 := not_lt.mpr (by linarith)
  simp only [evaluateConditions, viento_none data _ hw, rafagas_none data _ hg,
    lluvia_none data _ hr, nubes_none data _ hc, visibilidad_none data _ hv,
    indiceKp_none state _ hk]
  simp [temperatura, config.limits, a1, ht, Conditions.init, push]

/-- C9, witness: temp=45, wind=10, gusts=12, rain=0, clouds=10, visibility=10
with Kp=1 gives `safe = false`, no warning and the single danger
'Temperatura muy alta (45°C)'. -/
theorem high_temperature_witness :
    (evaluateConditions { kpIndex := 1, kpStatus := "bajo" }
      { temp := 45, wind := 10, gusts := 12, clouds := 10, rain := 0, visibility := 10 }).safe
      = false ∧
    (evaluateConditions { kpIndex := 1, kpStatus := "bajo" }
      { temp := 45, wind := 10, gusts := 12, clouds := 10, rain := 0, visibility := 10 }).warnings
      = [] ∧
    (evaluateConditions { kpIndex := 1, kpStatus := "bajo" }
      { temp := 45, wind := 10, gusts := 12, clouds := 10, rain := 0, visibility := 10 }).dangers
      = ["Temperatura muy alta (45°C)"] := by
  have h := high_temperature { kpIndex := 1, kpStatus := "bajo" }
    { temp := 45, wind := 10, gusts := 12, clouds := 10, rain := 0, visibility := 10 }
    (by norm_num) (by norm_num) (by norm_num) (by norm_num) (by norm_num) (by norm_num)
    (by norm_num)
  refine ⟨h.1, h.2.1, ?_⟩
  rw [h.2.2.1]
  rfl

/-! ## Cloud cover (C10) -/

theorem clouds_details (state : State) (data : HourData) :
    detailsOf .clouds (evaluateConditions state data) =
      (nubes data Conditions.init).details :=
  detailsOf_evaluateConditions state data .clouds

theorem nubes_safe_dangers (data : HourData) :
    (nubes data Conditions.init).safe = true ∧ (nubes data Conditions.init).dangers = [] := by
  unfold nubes
  split_ifs <;> simp [Conditions.init]

/-- C10: cloud cover is never a hard stop.  Two samples that differ only in
their clouds value, under the same Kp, get the same `safe` flag and the same
dangers; the clouds dimension never has a danger detail, every detail it has is
a warning, and it has one exactly when clouds > 70. -/
theorem clouds_never_block (state : State) (data : HourData) (clouds2 : ℚ) :
    (evaluateConditions state { data with clouds := clouds2 }).safe =
      (evaluateConditions state data).safe ∧
    (evaluateConditions state { data with clouds := clouds2 }).dangers =
      (evaluateConditions state data).dangers ∧
    hasDetail .danger .clouds (evaluateConditions state data) = false ∧
    (∀ d ∈ detailsOf .clouds (evaluateConditions state data), d.type = .warning) ∧
    ((∃ d, detailsOf .clouds (evaluateConditions state data) = [d]) ↔ data.clouds > 70) ∧
    (detailsOf .clouds (evaluateConditions state data) = [] ↔ ¬ data.clouds > 70) := by
  refine ⟨?_, ?_, ?_, ?_, ?_, ?_⟩
  · rw [evaluateConditions_safe, evaluateConditions_safe]
    simp only [block, (nubes_safe_dangers _).1]
    rfl
  · rw [evaluateConditions_dangers, evaluateConditions_dangers]
    simp only [block, (nubes_safe_dangers _).2]
    rfl
  · rw [hasDetail, clouds_details]
    unfold nubes
    split_ifs <;> simp [Conditions.init, push]
  · rw [clouds_details]
    unfold nubes
    split_ifs <;> simp [Conditions.init, push]
  · rw [clouds_details]
    unfold nubes
    split_ifs with h <;> simp_all [Conditions.init, push, config.limits]
  · rw [clouds_details]
    unfold nubes
    split_ifs with h <;> simp_all [Conditions.init, push, config.limits]

/-! ## Rounding to a double: basic facts -/

theorem roundHalfEven_intCast (n : ℤ) : roundHalfEven (n : ℚ) = n := by
  simp [roundHalfEven]

theorem roundHalfEven_ge_floor (m : ℚ) : ⌊m⌋ ≤ roundHalfEven m := by
  unfold roundHalfEven
  simp only
  split_ifs <;> omega

theorem roundHalfEven_le_floor_succ (m : ℚ) : roundHalfEven m ≤ ⌊m⌋ + 1 := by
  unfold roundHalfEven
  simp only
  split_ifs <;> omega

theorem roundHalfEven_error (m : ℚ) : |(roundHalfEven m : ℚ) - m| ≤ 1 / 2 := by
  have h1 := Int.floor_le m
  have h2 := Int.lt_floor_add_one m
  unfold roundHalfEven
  simp only
  rw [abs_le]
  split_ifs with a b c
  · constructor <;> linarith
  · push_cast
    constructor <;> linarith
  · have e : m - ⌊m⌋ = 1 / 2 := le_antisymm (not_lt.mp b) (not_lt.mp a)
    constructor <;> linarith
  · have e : m - ⌊m⌋ = 1 / 2 := le_antisymm (not_lt.mp b) (not_lt.mp a)
    push_cast
    constructor <;> linarith

theorem roundHalfEven_mono (a b : ℚ) (h : a ≤ b) : roundHalfEven a ≤ roundHalfEven b := by
  have hfl : ⌊a⌋ ≤ ⌊b⌋ := Int.floor_mono h
  rcases lt_or_eq_of_le hfl with hlt | heq
  · have h1 := roundHalfEven_le_floor_succ a
    have h2 := roundHalfEven_ge_floor b
    omega
  · unfold roundHalfEven
    simp only
    rw [← heq]
    have hab : a - (⌊a⌋ : ℚ) ≤ b - (⌊a⌋ : ℚ) := by linarith
    split_ifs <;> first | omega | (exfalso; linarith)

/-- The binary scale at which a positive number is rounded. -/
theorem scale_ge (x : ℚ) : Int.log 2 x - 52 ≤ max (Int.log 2 x - 52) (-1074) ∧
    (-1074 : ℤ) ≤ max (Int.log 2 x - 52) (-1074) :=
  ⟨le_max_left _ _, le_max_right _ _⟩

/-- The significand of a positive number is below `2^53`. -/
theorem significand_lt (x : ℚ) :
    x / 2 ^ (max (Int.log 2 x - 52) (-1074)) < (2 : ℚ) ^ (53 : ℤ) := by
  have h2 : x < ((2 : ℕ) : ℚ) ^ (Int.log 2 x + 1) := Int.lt_zpow_succ_log_self one_lt_two x
  rw [Nat.cast_ofNat] at h2
  have hp : (0 : ℚ) < 2 ^ (max (Int.log 2 x - 52) (-1074)) := zpow_pos (by norm_num) _
  rw [div_lt_iff₀ hp, ← zpow_add₀ (by norm_num : (2 : ℚ) ≠ 0)]
  refine lt_of_lt_of_le h2 (zpow_le_zpow_right₀ (by norm_num) ?_)
  have := (scale_ge x).1
  omega

/-- A number of at least `2^-1022` is rounded at the scale of its own power of two. -/
theorem scale_of_normal (x : ℚ) (hx : 1 / 2 ^ 1022 ≤ x) :
    max (Int.log 2 x - 52) (-1074) = Int.log 2 x - 52 := by
  have hpos : 0 < x := lt_of_lt_of_le (by positivity) hx
  have : (-1022 : ℤ) ≤ Int.log 2 x := by
    rw [← Int.zpow_le_iff_le_log one_lt_two hpos, Nat.cast_ofNat]
    have e : (2 : ℚ) ^ (-1022 : ℤ) = 1 / 2 ^ 1022 := by
      rw [zpow_neg, one_div]
      norm_cast
    rw [e]
    exact hx
  exact max_eq_left (by omega)

/-- The significand of a number of at least `2^-1022` is at least `2^52`. -/
theorem significand_ge (x : ℚ) (hx : 1 / 2 ^ 1022 ≤ x) :
    (2 : ℚ) ^ (52 : ℤ) ≤ x / 2 ^ (max (Int.log 2 x - 52) (-1074)) := by
  have hpos : 0 < x := lt_of_lt_of_le (by positivity) hx
  rw [scale_of_normal x hx]
  have h1 : ((2 : ℕ) : ℚ) ^ Int.log 2 x ≤ x := Int.zpow_log_le_self one_lt_two hpos
  rw [Nat.cast_ofNat] at h1
  have hp : (0 : ℚ) < 2 ^ (Int.log 2 x - 52) := zpow_pos (by norm_num) _
  rw [le_div_iff₀ hp, ← zpow_add₀ (by norm_num : (2 : ℚ) ≠ 0)]
  simpa using h1

theorem roundDouble_zero : roundDouble 0 = 0 := by
  simp [roundDouble]

theorem roundDouble_of_pos (x : ℚ) (hx : 0 < x) :
    roundDouble x =
      (roundHalfEven (x / 2 ^ (max (Int.log 2 x - 52) (-1074))) : ℚ) *
        2 ^ (max (Int.log 2 x - 52) (-1074)) := by
  have h0 : x ≠ 0 := ne_of_gt hx
  have h1 : ¬ x < 0 := not_lt.mpr hx.le
  simp [roundDouble, h0, h1, abs_of_pos hx]

theorem roundDouble_neg (x : ℚ) : roundDouble (-x) = -roundDouble x := by
  rcases lt_trichotomy x 0 with h | h | h
  · have h1 : ¬ (-x < 0) := by linarith
    have h2 : -x ≠ 0 := by linarith
    have h3 : x ≠ 0 := ne_of_lt h
    simp [roundDouble, h, h1, h3]
  · simp [h, roundDouble_zero]
  · have h1 : -x < 0 := by linarith
    have h2 : ¬ x < 0 := not_lt.mpr h.le
    have h3 : x ≠ 0 := ne_of_gt h
    simp [roundDouble, h1, h2, h3]

theorem roundDouble_nonneg (x : ℚ) (hx : 0 ≤ x) : 0 ≤ roundDouble x := by
  rcases eq_or_lt_of_le hx with h | h
  · rw [← h, roundDouble_zero]
  · rw [roundDouble_of_pos x h]
    have hp : (0 : ℚ) < 2 ^ (max (Int.log 2 x - 52) (-1074)) := zpow_pos (by norm_num) _
    have hf : (0 : ℤ) ≤ roundHalfEven (x / 2 ^ (max (Int.log 2 x - 52) (-1074))) := by
      refine le_trans ?_ (roundHalfEven_ge_floor _)
      exact Int.floor_nonneg.mpr (div_nonneg h.le hp.le)
    exact mul_nonneg (by exact_mod_cast hf) hp.le

/-- The rounded significand of a positive number is between 0 and `2^53`. -/
theorem significand_round_le (x : ℚ) (hx : 0 < x) :
    0 ≤ roundHalfEven (x / 2 ^ (max (Int.log 2 x - 52) (-1074))) ∧
      roundHalfEven (x / 2 ^ (max (Int.log 2 x - 52) (-1074))) ≤ (2 : ℤ) ^ 53 := by
  have hp : (0 : ℚ) < 2 ^ (max (Int.log 2 x - 52) (-1074)) := zpow_pos (by norm_num) _
  constructor
  · refine le_trans ?_ (roundHalfEven_ge_floor _)
    exact Int.floor_nonneg.mpr (div_nonneg hx.le hp.le)
  · refine le_trans (roundHalfEven_le_floor_succ _) ?_
    have : ⌊x / 2 ^ (max (Int.log 2 x - 52) (-1074))⌋ < (2 : ℤ) ^ 53 := by
      rw [Int.floor_lt]
      have : (((2 : ℤ) ^ 53 : ℤ) : ℚ) = (2 : ℚ) ^ (53 : ℤ) := by norm_cast
      rw [this]
      exact significand_lt x
    omega

/-- The rounded significand of a number of at least `2^-1022` is at least `2^52`. -/
theorem significand_round_ge (x : ℚ) (hx : 1 / 2 ^ 1022 ≤ x) :
    (2 : ℤ) ^ 52 ≤ roundHalfEven (x / 2 ^ (max (Int.log 2 x - 52) (-1074))) := by
  refine le_trans ?_ (roundHalfEven_ge_floor _)
  rw [Int.le_floor]
  have : (((2 : ℤ) ^ 52 : ℤ) : ℚ) = (2 : ℚ) ^ (52 : ℤ) := by norm_cast
  rw [this]
  exact significand_ge x hx

/-- Rounding zero or a number of at least `2^-1022` changes it by at most the
fraction `2^-53`. -/
theorem roundDouble_error (x : ℚ) (hx : x = 0 ∨ 1 / 2 ^ 1022 ≤ x) :
    x * (1 - 1 / 2 ^ 53) ≤ roundDouble x ∧ roundDouble x ≤ x * (1 + 1 / 2 ^ 53) := by
  rcases hx with h | h
  · rw [h, roundDouble_zero]
    simp
  · have hpos : 0 < x := lt_of_lt_of_le (by positivity) h
    rw [roundDouble_of_pos x hpos]
    have hb := significand_ge x h
    set e := max (Int.log 2 x - 52) (-1074) with he
    have hp : (0 : ℚ) < 2 ^ e := zpow_pos (by norm_num) _
    have herr := abs_le.mp (roundHalfEven_error (x / 2 ^ e))
    have hx' : x = x / 2 ^ e * 2 ^ e := by field_simp
    have h52 : (2 : ℚ) ^ (52 : ℤ) = 2 ^ 52 := by norm_cast
    rw [h52] at hb
    have hy : (1 : ℚ) / 2 ≤ x / 2 ^ e * (1 / 2 ^ 53) := by
      have : (1 : ℚ) / 2 = 2 ^ 52 * (1 / 2 ^ 53) := by norm_num
      rw [this]
      exact mul_le_mul_of_nonneg_right hb (by positivity)
    constructor
    · calc x * (1 - 1 / 2 ^ 53) = (x / 2 ^ e - x / 2 ^ e * (1 / 2 ^ 53)) * 2 ^ e := by
            conv_lhs => rw [hx']
            ring
        _ ≤ (roundHalfEven (x / 2 ^ e) : ℚ) * 2 ^ e :=
            mul_le_mul_of_nonneg_right (by linarith [herr.1]) hp.le
    · calc (roundHalfEven (x / 2 ^ e) : ℚ) * 2 ^ e
          ≤ (x / 2 ^ e + x / 2 ^ e * (1 / 2 ^ 53)) * 2 ^ e :=
            mul_le_mul_of_nonneg_right (by linarith [herr.2]) hp.le
        _ = x * (1 + 1 / 2 ^ 53) := by
            conv_rhs => rw [hx']
            ring

theorem log_two_eq (x : ℚ) (k : ℤ) (hx : 0 < x) (h1 : (2 : ℚ) ^ k ≤ x)
    (h2 : x < (2 : ℚ) ^ (k + 1)) : Int.log 2 x = k := by
  have a : k ≤ Int.log 2 x := by
    rw [← Int.zpow_le_iff_le_log one_lt_two hx, Nat.cast_ofNat]
    exact h1
  have b : Int.log 2 x < k + 1 := by
    rw [← Int.lt_zpow_iff_log_lt one_lt_two hx, Nat.cast_ofNat]
    exact h2
  omega

/-- Evaluation of `roundDouble` at a positive number whose binary exponent
`k ≥ -1022` and significand floor `f` are given. -/
theorem roundDouble_eval (x : ℚ) (k f : ℤ) (hk : -1022 ≤ k) (hx : 0 < x)
    (h1 : (2 : ℚ) ^ k ≤ x) (h2 : x < (2 : ℚ) ^ (k + 1)) (hf1 : (f : ℚ) ≤ x / 2 ^ (k - 52))
    (hf2 : x / 2 ^ (k - 52) < f + 1) :
    roundDouble x =
      ((if x / 2 ^ (k - 52) - f < 1 / 2 then f
        else if 1 / 2 < x / 2 ^ (k - 52) - f then f + 1
        else if f % 2 = 0 then f else f + 1 : ℤ) : ℚ) * 2 ^ (k - 52) := by
  have hfl : ⌊x / 2 ^ (k - 52)⌋ = f := Int.floor_eq_iff.mpr ⟨hf1, hf2⟩
  have hs : max (Int.log 2 x - 52) (-1074) = k - 52 := by
    rw [log_two_eq x k hx h1 h2]
    exact max_eq_left (by omega)
  rw [roundDouble_of_pos x hx, hs]
  simp only [roundHalfEven, hfl]

/-- A number `m * 2^e` with `m < 2^53` and `e ≥ -1074` is a double: rounding
leaves it as it is. -/
theorem roundDouble_exact (m : ℕ) (e : ℤ) (he : -1074 ≤ e) (hm : m < 2 ^ 53) :
    roundDouble ((m : ℚ) * 2 ^ e) = (m : ℚ) * 2 ^ e := by
  rcases Nat.eq_zero_or_pos m with h0 | hpos
  · simp [h0, roundDouble_zero]
  · have h2 : (0 : ℚ) < 2 ^ e := zpow_pos (by norm_num) _
    have hx : (0 : ℚ) < (m : ℚ) * 2 ^ e := mul_pos (by exact_mod_cast hpos) h2
    set x : ℚ := (m : ℚ) * 2 ^ e with hxdef
    have hlog : Int.log 2 x < 53 + e := by
      rw [← Int.lt_zpow_iff_log_lt one_lt_two hx, Nat.cast_ofNat,
        zpow_add₀ (by norm_num : (2 : ℚ) ≠ 0)]
      have : (m : ℚ) < 2 ^ (53 : ℤ) := by exact_mod_cast hm
      exact mul_lt_mul_of_pos_right this h2
    set s := max (Int.log 2 x - 52) (-1074) with hsdef
    have hse : s ≤ e := max_le (by omega) he
    obtain ⟨d, hd⟩ : ∃ d : ℕ, e - s = d :=
      ⟨(e - s).toNat, (Int.toNat_of_nonneg (by omega)).symm⟩
    have he' : e = s + d := by omega
    have hp : (0 : ℚ) < 2 ^ s := zpow_pos (by norm_num) _
    have hs : x / 2 ^ s = ((m * 2 ^ d : ℤ) : ℚ) := by
      rw [div_eq_iff (ne_of_gt hp), hxdef]
      conv_lhs => rw [he', zpow_add₀ (by norm_num : (2 : ℚ) ≠ 0), zpow_natCast]
      push_cast
      ring
    rw [roundDouble_of_pos x hx, ← hsdef, hs, roundHalfEven_intCast, ← hs]
    field_simp

theorem roundDouble_natCast (n : ℕ) (hn : n < 2 ^ 53) : roundDouble (n : ℚ) = n := by
  simpa using roundDouble_exact n 0 (by norm_num) hn

/-- A positive value of `roundDouble` is `m * 2^e` with `m ≤ 2^53`, `e ≥ -1074`. -/
theorem roundDouble_repr (x : ℚ) (hx : 0 < x) :
    ∃ (m : ℕ) (e : ℤ), m < 2 ^ 53 ∧ -1074 ≤ e ∧ roundDouble x = (m : ℚ) * 2 ^ e := by
  obtain ⟨hr1, hr2⟩ := significand_round_le x hx
  rw [roundDouble_of_pos x hx]
  set s := max (Int.log 2 x - 52) (-1074) with hsdef
  set r := roundHalfEven (x / 2 ^ s) with hr
  have hs : (-1074 : ℤ) ≤ s := le_max_right _ _
  rcases eq_or_lt_of_le hr2 with h | h
  · refine ⟨2 ^ 52, s + 1, by norm_num, by omega, ?_⟩
    rw [h, zpow_add₀ (by norm_num : (2 : ℚ) ≠ 0)]
    push_cast
    ring
  · refine ⟨r.toNat, s, by omega, hs, ?_⟩
    have hn : ((r.toNat : ℕ) : ℤ) = r := Int.toNat_of_nonneg hr1
    have hq : ((r.toNat : ℕ) : ℚ) = (r : ℚ) := by exact_mod_cast hn
    rw [hq]

/-- The result of `roundDouble` is a double. -/
theorem roundDouble_idem (x : ℚ) : roundDouble (roundDouble x) = roundDouble x := by
  have key : ∀ y : ℚ, 0 < y → roundDouble (roundDouble y) = roundDouble y := by
    intro y hy
    obtain ⟨m, e, hm, he, h⟩ := roundDouble_repr y hy
    rw [h]
    exact roundDouble_exact m e he hm
  rcases lt_trichotomy x 0 with h | h | h
  · have := key (-x) (by linarith)
    rw [roundDouble_neg, roundDouble_neg] at this
    linarith
  · rw [h, roundDouble_zero, roundDouble_zero]
  · exact key x h

/-- On non-negative numbers, rounding to a double preserves the order. -/
theorem roundDouble_mono (x y : ℚ) (hx : 0 ≤ x) (h : x ≤ y) :
    roundDouble x ≤ roundDouble y := by
  rcases eq_or_lt_of_le hx with h0 | hpos
  · rw [← h0, roundDouble_zero]
    exact roundDouble_nonneg y (le_trans hx h)
  · have hy : 0 < y := lt_of_lt_of_le hpos h
    have hlog : Int.log 2 x ≤ Int.log 2 y := Int.log_mono_right hpos h
    have hsc : max (Int.log 2 x - 52) (-1074) ≤ max (Int.log 2 y - 52) (-1074) :=
      max_le_max (by omega) le_rfl
    rw [roundDouble_of_pos x hpos, roundDouble_of_pos y hy]
    set sx := max (Int.log 2 x - 52) (-1074) with hsx
    set sy := max (Int.log 2 y - 52) (-1074) with hsy
    have hpx : (0 : ℚ) < 2 ^ sx := zpow_pos (by norm_num) _
    have hpy : (0 : ℚ) < 2 ^ sy := zpow_pos (by norm_num) _
    rcases lt_or_eq_of_le hsc with hlt | heq
    · have hnorm : sy = Int.log 2 y - 52 := by
        rcases max_choice (Int.log 2 y - 52) (-1074) with hc | hc
        · rw [hsy, hc]
        · have h1 : sy = -1074 := by rw [hsy, hc]
          have h2 : (-1074 : ℤ) ≤ sx := le_max_right _ _
          omega
      have hrx := (significand_round_le x hpos).2
      rw [← hsx] at hrx
      have hrx' : (roundHalfEven (x / 2 ^ sx) : ℚ) ≤ 2 ^ (53 : ℤ) := by
        have c : (((2 : ℤ) ^ 53 : ℤ) : ℚ) = (2 : ℚ) ^ (53 : ℤ) := by norm_cast
        rw [← c]
        exact Int.cast_le.mpr hrx
      have hylow : (2 : ℚ) ^ (52 : ℤ) ≤ y / 2 ^ sy := by
        have h1 : ((2 : ℕ) : ℚ) ^ Int.log 2 y ≤ y := Int.zpow_log_le_self one_lt_two hy
        rw [Nat.cast_ofNat] at h1
        rw [le_div_iff₀ hpy, ← zpow_add₀ (by norm_num : (2 : ℚ) ≠ 0), hnorm]
        simpa using h1
      have hry' : (2 : ℚ) ^ (52 : ℤ) ≤ (roundHalfEven (y / 2 ^ sy) : ℚ) := by
        have c : (((2 : ℤ) ^ 52 : ℤ) : ℚ) = (2 : ℚ) ^ (52 : ℤ) := by norm_cast
        rw [← c]
        apply Int.cast_le.mpr
        refine le_trans ?_ (roundHalfEven_ge_floor _)
        rw [Int.le_floor, c]
        exact hylow
      calc (roundHalfEven (x / 2 ^ sx) : ℚ) * 2 ^ sx
          ≤ 2 ^ (53 : ℤ) * 2 ^ sx := mul_le_mul_of_nonneg_right hrx' hpx.le
        _ = 2 ^ (53 + sx) := by rw [← zpow_add₀ (by norm_num : (2 : ℚ) ≠ 0)]
        _ ≤ 2 ^ (52 + sy) := zpow_le_zpow_right₀ (by norm_num) (by omega)
        _ = 2 ^ (52 : ℤ) * 2 ^ sy := by rw [← zpow_add₀ (by norm_num : (2 : ℚ) ≠ 0)]
        _ ≤ (roundHalfEven (y / 2 ^ sy) : ℚ) * 2 ^ sy :=
            mul_le_mul_of_nonneg_right hry' hpy.le
    · rw [heq]
      have hs : x / 2 ^ sy ≤ y / 2 ^ sy := div_le_div_of_nonneg_right h hpy.le
      have := roundHalfEven_mono _ _ hs
      exact mul_le_mul_of_nonneg_right (Int.cast_le.mpr this) hpy.le

/-- A positive double is `m * 2^e` with `m < 2^53` and `e ≥ -1074`. -/
theorem double_repr (x : ℚ) (hx : 0 < x) (hd : roundDouble x = x) :
    ∃ (m : ℕ) (e : ℤ), m < 2 ^ 53 ∧ -1074 ≤ e ∧ x = (m : ℚ) * 2 ^ e := by
  obtain ⟨m, e, hm, he, h⟩ := roundDouble_repr x hx
  exact ⟨m, e, hm, he, by rw [← hd, h]⟩

/-- Twice a non-negative double is a double, overflow apart. -/
theorem roundDouble_two_mul (x : ℚ) (hx : 0 ≤ x) (hd : roundDouble x = x) :
    roundDouble (2 * x) = 2 * x := by
  rcases eq_or_lt_of_le hx with h0 | hpos
  · rw [← h0, mul_zero, roundDouble_zero]
  · obtain ⟨m, e, hm, he, hxe⟩ := double_repr x hpos hd
    have : 2 * x = (m : ℚ) * 2 ^ (e + 1) := by
      rw [hxe, zpow_add₀ (by norm_num : (2 : ℚ) ≠ 0)]
      ring
    rw [this]
    exact roundDouble_exact m (e + 1) (by omega) hm

/-! ## The status label (C13) and its agreement with the evaluator (C18) -/

/-- C13: the status label is a total function of the Kp mean `m` with inclusive
upper boundaries: "bajo" iff m ≤ 3, "moderado" iff 3 < m ≤ 5, "alto" iff
5 < m ≤ 7, "tormenta" iff m > 7; so 3, 5 and 7 map to "bajo", "moderado" and
"alto". -/
theorem kpStatusOf_bands (m : ℚ) :
    (kpStatusOf m = "bajo" ↔ m ≤ 3) ∧
    (kpStatusOf m = "moderado" ↔ 3 < m ∧ m ≤ 5) ∧
    (kpStatusOf m = "alto" ↔ 5 < m ∧ m ≤ 7) ∧
    (kpStatusOf m = "tormenta" ↔ 7 < m) ∧
    kpStatusOf 3 = "bajo" ∧ kpStatusOf 5 = "moderado" ∧ kpStatusOf 7 = "alto" := by
  refine ⟨?_, ?_, ?_, ?_, ?_, ?_, ?_⟩
  · unfold kpStatusOf
    split_ifs with h1 h2 h3 <;> simp [h1]
  · unfold kpStatusOf
    split_ifs with h1 h2 h3
    · simp; intro h; linarith
    · simp; exact ⟨lt_of_not_le h1, h2⟩
    · simp; intro _; exact lt_of_not_le h2
    · simp; intro _; exact lt_of_not_le h2
  · unfold kpStatusOf
    split_ifs with h1 h2 h3
    · simp; intro h; linarith
    · simp; intro h; linarith
    · simp; exact ⟨lt_of_not_le h2, h3⟩
    · simp; intro _; exact lt_of_not_le h3
  · unfold kpStatusOf
    split_ifs with h1 h2 h3
    · simp; linarith
    · simp; linarith
    · simp; exact h3
    · simp; exact lt_of_not_le h3
  · norm_num [kpStatusOf]
  · norm_num [kpStatusOf]
  · norm_num [kpStatusOf]

theorem kpStatusOf_bajo (k : ℚ) : kpStatusOf k = "bajo" ↔ k ≤ 3 := by
  unfold kpStatusOf
  split_ifs with h1 h2 h3 <;> simp [h1]

theorem kpStatusOf_tormenta (k : ℚ) : kpStatusOf k = "tormenta" ↔ 7 < k := by
  unfold kpStatusOf
  split_ifs with h1 h2 h3
  · simp; linarith
  · simp; linarith
  · simp; exact h3
  · simp; exact lt_of_not_le h3

/-- C18: the status label and the geomagnetic band of the evaluator agree.  For
every Kp value `k` labelled as in `loadKpIndex` and every weather sample: if the
label is "bajo" (k ≤ 3) the verdict has neither a geomagnetic danger nor a
geomagnetic warning; if the label is "tormenta" (k > 7) the verdict has
`safe = false` and a geomagnetic danger. -/
theorem label_agrees_with_band (k : ℚ) (data : HourData) :
    (kpStatusOf k = "bajo" →
      k ≤ 3 ∧
      hasDetail .danger .geomagnetic
        (evaluateConditions { kpIndex := k, kpStatus := kpStatusOf k } data) = false ∧
      hasDetail .warning .geomagnetic
        (evaluateConditions { kpIndex := k, kpStatus := kpStatusOf k } data) = false) ∧
    (kpStatusOf k = "tormenta" →
      k > 7 ∧
      (evaluateConditions { kpIndex := k, kpStatus := kpStatusOf k } data).safe = false ∧
      hasDetail .danger .geomagnetic
        (evaluateConditions { kpIndex := k, kpStatus := kpStatusOf k } data) = true) := by
  constructor
  · intro h
    have hk : k ≤ 3 := (kpStatusOf_bajo k).mp h
    have a1 : ¬ k > 6 := not_lt.mpr (by linarith)
    have a2 : ¬ k > 4 := not_lt.mpr (by linarith)
    refine ⟨hk, ?_, ?_⟩
    · rw [hasDetail_evaluateConditions]
      by_cases h2 : k > 2 <;> simp [block, indiceKp, a1, a2, h2, Conditions.init, push]
    · rw [hasDetail_evaluateConditions]
      by_cases h2 : k > 2 <;> simp [block, indiceKp, a1, a2, h2, Conditions.init, push]
  · intro h
    have hk : 7 < k := (kpStatusOf_tormenta k).mp h
    have a1 : k > 6 := by linarith
    refine ⟨hk, ?_, ?_⟩
    · rw [evaluateConditions_weatherVerdict]
      simp [indiceKp, a1]
    · rw [hasDetail_evaluateConditions]
      simp [block, indiceKp, a1, Conditions.init, push]

/-- C18, witnesses: Kp = 2 is labelled "bajo" and Kp = 8 "tormenta"; on the
sample temp=20, wind=10, gusts=12, clouds=10, rain=0, visibility=10 the first
has no geomagnetic danger or warning, the second is unsafe with a geomagnetic
danger. -/
theorem label_agrees_with_band_witness :
    (kpStatusOf 2 = "bajo" ∧
      hasDetail .danger .geomagnetic (evaluateConditions { kpIndex := 2, kpStatus := kpStatusOf 2 }
        { temp := 20, wind := 10, gusts := 12, clouds := 10, rain := 0, visibility := 10 })
        = false ∧
      hasDetail .warning .geomagnetic (evaluateConditions { kpIndex := 2, kpStatus := kpStatusOf 2 }
        { temp := 20, wind := 10, gusts := 12, clouds := 10, rain := 0, visibility := 10 })
        = false) ∧
    (kpStatusOf 8 = "tormenta" ∧
      (evaluateConditions { kpIndex := 8, kpStatus := kpStatusOf 8 }
        { temp := 20, wind := 10, gusts := 12, clouds := 10, rain := 0, visibility := 10 }).safe
        = false ∧
      hasDetail .danger .geomagnetic (evaluateConditions { kpIndex := 8, kpStatus := kpStatusOf 8 }
        { temp := 20, wind := 10, gusts := 12, clouds := 10, rain := 0, visibility := 10 })
        = true) := by
  have hb : kpStatusOf 2 = "bajo" := by norm_num [kpStatusOf]
  have ht : kpStatusOf 8 = "tormenta" := by norm_num [kpStatusOf]
  have h2 := (label_agrees_with_band 2
    { temp := 20, wind := 10, gusts := 12, clouds := 10, rain := 0, visibility := 10 }).1 hb
  have h8 := (label_agrees_with_band 8
    { temp := 20, wind := 10, gusts := 12, clouds := 10, rain := 0, visibility := 10 }).2 ht
  exact ⟨⟨hb, h2.2.1, h2.2.2⟩, ⟨ht, h8.2.1, h8.2.2⟩⟩

/-! ## The recommendation list (C16) -/

theorem foldl_push_map {α β : Type} (f : α → β) (xs : List α) (acc : List β) :
    xs.foldl (fun html x => push html (f x)) acc = acc ++ xs.map f := by
  induction xs generalizing acc with
  | nil => simp
  | cons x xs ih =>
    rw [List.foldl_cons, ih, push, List.map_cons, List.append_assoc]
    rfl

theorem updateRecommendations_text (conditions : Conditions) :
    (updateRecommendations conditions).map (fun r => r.text) =
      if conditions.safe = true ∧ conditions.warnings = [] ∧ conditions.dangers = [] then
        positiveAffirmations
      else conditions.dangers ++ conditions.warnings ++
        (if conditions.safe = true then ["Vuelo posible con precauciones"] else []) := by
  unfold updateRecommendations
  simp only [foldl_push_map, List.nil_append, List.length_eq_zero]
  split_ifs <;> simp_all [positiveAffirmations, push, Function.comp_def]

/-- C16, as the code has it: for every verdict, the texts of the recommendation
list are the danger messages in order, then the warning messages in order, then,
when `safe` is true, the one line 'Vuelo posible con precauciones'; except that
when `safe` is true and both lists are empty the list is exactly the four fixed
affirmations.  So with at least one danger or warning the list has
|dangers| + |warnings| entries when `safe` is false and one more when `safe` is
true. -/
theorem recommendations_list (conditions : Conditions) :
    ((updateRecommendations conditions).map (fun r => r.text) =
      if conditions.safe = true ∧ conditions.warnings = [] ∧ conditions.dangers = [] then
        ["Condiciones óptimas para vuelo", "Viento dentro de límites seguros",
          "Buena visibilidad", "Temperatura adecuada"]
      else conditions.dangers ++ conditions.warnings ++
        (if conditions.safe = true then ["Vuelo posible con precauciones"] else [])) ∧
    ((conditions.dangers ≠ [] ∨ conditions.warnings ≠ []) →
      (updateRecommendations conditions).length =
        conditions.dangers.length + conditions.warnings.length +
          (if conditions.safe = true then 1 else 0)) := by
  refine ⟨updateRecommendations_text conditions, ?_⟩
  intro h
  have hne : ¬ (conditions.safe = true ∧ conditions.warnings = [] ∧ conditions.dangers = []) := by
    rintro ⟨-, hw, hd⟩
    rcases h with h | h
    · exact h hd
    · exact h hw
  have := congrArg List.length (updateRecommendations_text conditions)
  rw [if_neg hne, List.length_map] at this
  rw [this]
  split_ifs <;> simp [Nat.add_assoc]

/-- C16, witness: a verdict with `safe = false`, one danger and one warning gets
exactly these two lines. -/
theorem recommendations_list_witness :
    (updateRecommendations
      { safe := false, warnings := ["Ráfagas moderadas (30 km/h)"],
        dangers := ["Viento fuerte (35 km/h)"], details := [] }).length = 2 := by
  have h := (recommendations_list
    { safe := false, warnings := ["Ráfagas moderadas (30 km/h)"],
      dangers := ["Viento fuerte (35 km/h)"], details := [] }).2 (Or.inl (by simp))
  simpa using h

/-- C16, counterexample to the claim as written: the verdict of
`evaluateConditions` for temp=20, wind=25, gusts=12, clouds=10, rain=0,
visibility=10 with Kp=2 has no danger and the single warning 'Viento moderado
(25 km/h)', yet its recommendation list has two entries, the second being
'Vuelo posible con precauciones'. -/
theorem recommendations_list_counterexample :
    (evaluateConditions state
      { temp := 20, wind := 25, gusts := 12, clouds := 10, rain := 0, visibility := 10 }).dangers
      = [] ∧
    (evaluateConditions state
      { temp := 20, wind := 25, gusts := 12, clouds := 10, rain := 0, visibility := 10 }).warnings
      = ["Viento moderado (25 km/h)"] ∧
    (updateRecommendations (evaluateConditions state
      { temp := 20, wind := 25, gusts := 12, clouds := 10, rain := 0, visibility := 10 })).map
      (fun r => r.text) = ["Viento moderado (25 km/h)", "Vuelo posible con precauciones"] ∧
    (updateRecommendations (evaluateConditions state
      { temp := 20, wind := 25, gusts := 12, clouds := 10, rain := 0, visibility := 10 })).length
      ≠ 0 + 1 := by
  have hv : evaluateConditions state
      { temp := 20, wind := 25, gusts := 12, clouds := 10, rain := 0, visibility := 10 } =
      { safe := true, warnings := ["Viento moderado (25 km/h)"], dangers := [],
        details := [
          { type := .warning
            title := "Viento moderado"
            message := "Viento de 25 km/h. Vuela con precaución, mantén el dron a la vista y considera reducir la distancia máxima."
            icon := "fas fa-wind" }] } := by
    norm_num [evaluateConditions, temperatura, viento, rafagas, lluvia, nubes, visibilidad,
      indiceKp, config.limits, Conditions.init, push, state]
    constructor <;> rfl
  rw [hv]
  refine ⟨rfl, rfl, ?_, ?_⟩
  · rw [updateRecommendations_text]
    simp
  · have := congrArg List.length (updateRecommendations_text
      { safe := true, warnings := ["Viento moderado (25 km/h)"], dangers := [],
        details := [
          { type := .warning
            title := "Viento moderado"
            message := "Viento de 25 km/h. Vuela con precaución, mantén el dron a la vista y considera reducir la distancia máxima."
            icon := "fas fa-wind" }] })
    rw [List.length_map] at this
    rw [this]
    simp

/-! ## The hour selector (C14, C15) -/

theorem index_clamped (xs : List (Option ℚ)) (N : ℕ) (H : ℤ) (hN : 1 ≤ N) (hH : 0 ≤ H)
    (hlen : xs.length = N) :
    index xs (min H ((N : ℤ) - 1)) = xs.getD (min H.toNat (N - 1)) none := by
  have h0 : ¬ (min H ((N : ℤ) - 1) < 0) := by
    rw [not_lt]
    exact le_min hH (by omega)
  have hi : (min H ((N : ℤ) - 1)).toNat = min H.toNat (N - 1) := by
    rcases le_total H ((N : ℤ) - 1) with h | h
    · rw [min_eq_left h, min_eq_left (by omega)]
    · rw [min_eq_right h, min_eq_right (by omega)]
      omega
  have hlt : min H.toNat (N - 1) < xs.length := by
    rw [hlen]
    exact lt_of_le_of_lt (min_le_right _ _) (by omega)
  rw [index, if_neg h0, hi, List.getD_eq_getElem?_getD, List.get?_eq_getElem?,
    List.getElem?_eq_getElem hlt]
  simp

theorem mathRound_orDefault_zero (v : Option ℚ) :
    mathRound (orDefault v 0) = mathRound (v.getD 0) := by
  cases v with
  | none => rfl
  | some x =>
    by_cases h : x = 0
    · simp [orDefault, h]
    · simp [orDefault, h]

/-- C14: for every forecast whose six hourly arrays all have length N ≥ 1 and
every requested hour H ≥ 0, `getCurrentHourData` (a total function: it always
returns a sample) reads index min(H, N-1), which is within the arrays, and the
sample's temp, wind, gusts, clouds and rain are the rounded entries at that
index of the corresponding arrays, a null entry being read as 0. -/
theorem hour_clamped (hourly : Hourly) (N : ℕ) (H : ℤ) (hN : 1 ≤ N) (hH : 0 ≤ H)
    (h1 : hourly.temperature_2m.length = N) (h2 : hourly.windspeed_10m.length = N)
    (h3 : hourly.windgusts_10m.length = N) (h4 : hourly.cloudcover.length = N)
    (h5 : hourly.precipitation_probability.length = N)
    (h6 : hourly.visibility.length = N) :
    min H.toNat (N - 1) < N ∧
    (getCurrentHourData (some { hourly := some hourly }) H).temp =
      mathRound ((hourly.temperature_2m.getD (min H.toNat (N - 1)) none).getD 0) ∧
    (getCurrentHourData (some { hourly := some hourly }) H).wind =
      mathRound ((hourly.windspeed_10m.getD (min H.toNat (N - 1)) none).getD 0) ∧
    (getCurrentHourData (some { hourly := some hourly }) H).gusts =
      mathRound ((hourly.windgusts_10m.getD (min H.toNat (N - 1)) none).getD 0) ∧
    (getCurrentHourData (some { hourly := some hourly }) H).clouds =
      mathRound ((hourly.cloudcover.getD (min H.toNat (N - 1)) none).getD 0) ∧
    (getCurrentHourData (some { hourly := some hourly }) H).rain =
      mathRound ((hourly.precipitation_probability.getD (min H.toNat (N - 1)) none).getD 0) := by
  have hlt : min H.toNat (N - 1) < N := lt_of_le_of_lt (min_le_right _ _) (by omega)
  simp only [getCurrentHourData, Option.bind, h1, mathRound_orDefault_zero]
  rw [index_clamped _ N H hN hH h1, index_clamped _ N H hN hH h2,
    index_clamped _ N H hN hH h3, index_clamped _ N H hN hH h4,
    index_clamped _ N H hN hH h5]
  exact ⟨hlt, rfl, rfl, rfl, rfl, rfl⟩

theorem mathRound_intCast (n : ℤ) : mathRound (n : ℚ) = n := by
  unfold mathRound
  have : ⌊(n : ℚ) + 1 / 2⌋ = n := by
    rw [Int.floor_eq_iff]
    constructor <;> linarith
  rw [this]

/-- C14, witness: with the 24-hour forecast that `loadWeatherData` falls back
on and H = 30, the sample is the one of index 23 (the last hour): temp -1,
wind 12, gusts 15, clouds 30, rain 5. -/
theorem hour_clamped_witness :
    min (30 : ℤ).toNat (24 - 1) = 23 ∧
    (getCurrentHourData (some { hourly := some fallbackHourly }) 30).temp = -1 ∧
    (getCurrentHourData (some { hourly := some fallbackHourly }) 30).wind = 12 ∧
    (getCurrentHourData (some { hourly := some fallbackHourly }) 30).gusts = 15 ∧
    (getCurrentHourData (some { hourly := some fallbackHourly }) 30).clouds = 30 ∧
    (getCurrentHourData (some { hourly := some fallbackHourly }) 30).rain = 5 := by
  have h := hour_clamped fallbackHourly 24 30 (by norm_num) (by norm_num)
    rfl rfl rfl rfl rfl rfl
  obtain ⟨-, ht, hw, hg, hc, hr⟩ := h
  have hi : min (30 : ℤ).toNat (24 - 1) = 23 := by decide
  rw [hi] at ht hw hg hc hr
  refine ⟨hi, ?_, ?_, ?_, ?_, ?_⟩
  · rw [ht]
    simpa [fallbackHourly] using mathRound_intCast (-1)
  · rw [hw]
    simpa [fallbackHourly] using mathRound_intCast 12
  · rw [hg]
    simpa [fallbackHourly] using mathRound_intCast 15
  · rw [hc]
    simpa [fallbackHourly] using mathRound_intCast 30
  · rw [hr]
    simpa [fallbackHourly] using mathRound_intCast 5


theorem visibility_of_entry (hourly : Hourly) (H : ℤ) :
    (getCurrentHourData (some { hourly := some hourly }) H).visibility =
      toFixed1 (fdiv (orDefault (index hourly.visibility
        (min H ((hourly.temperature_2m.length : ℤ) - 1))) 10000) 1000) := rfl

/-- C15, the code at the failing input: in a 24-hour forecast whose visibility
entries are all the number 0 (metres), the sample of hour 3 has visibility
"10.0", the text of the 10000 m default, although the entry is present and
0 / 1000 rounded to one decimal is "0.0".  A present reading other than 0 is
converted as the claim says. -/
theorem visibility_zero_gets_default :
    index ({ fallbackHourly with visibility := List.replicate 24 (some 0) }).visibility 3
      = some 0 ∧
    (getCurrentHourData
      (some { hourly := some { fallbackHourly with visibility := List.replicate 24 (some 0) } })
      3).visibility = "10.0" ∧
    toFixed1 (fdiv 0 1000) = "0.0" ∧
    (∀ (hourly : Hourly) (H : ℤ) (v : ℚ), v ≠ 0 →
      index hourly.visibility (min H ((hourly.temperature_2m.length : ℤ) - 1)) = some v →
      (getCurrentHourData (some { hourly := some hourly }) H).visibility =
        toFixed1 (fdiv v 1000)) := by
  have h10 : fdiv 10000 1000 = 10 := by
    have : (10000 : ℚ) / 1000 = ((10 : ℕ) : ℚ) := by norm_num
    rw [fdiv, this, roundDouble_natCast 10 (by norm_num)]
    norm_num
  have h0 : fdiv 0 1000 = 0 := by
    rw [fdiv, zero_div, roundDouble_zero]
  refine ⟨by decide, ?_, ?_, ?_⟩
  · rw [visibility_of_entry]
    have hi : index ({ fallbackHourly with
        visibility := List.replicate 24 (some 0) }).visibility
        (min 3 ((({ fallbackHourly with
          visibility := List.replicate 24 (some 0) }).temperature_2m.length : ℤ) - 1))
        = some 0 := by decide
    rw [hi]
    simp only [orDefault, if_true]
    rw [h10]
    rfl
  · rw [h0]
    rfl
  · intro hourly H v hv hidx
    rw [visibility_of_entry, hidx]
    simp [orDefault, hv]

/-! ## Numbers with infinities -/

theorem ofExact_eq_fin (x y : ℚ) (h : roundDouble x = y) (h1 : y < 2 ^ 1024)
    (h2 : -2 ^ 1024 < y) : JsNum.ofExact x = .fin y := by
  subst h
  unfold JsNum.ofExact
  rw [if_neg (not_le.mpr h1), if_neg (not_le.mpr h2)]

theorem ofExact_eq_posInf (x : ℚ) (h : 2 ^ 1024 ≤ roundDouble x) :
    JsNum.ofExact x = .posInf := by
  simp [JsNum.ofExact, h]

/-- A finite value of `ofExact` is a double below `2^1024` in magnitude. -/
theorem ofExact_fin_inv (x y : ℚ) (h : JsNum.ofExact x = .fin y) :
    y = roundDouble x ∧ y < 2 ^ 1024 ∧ -2 ^ 1024 < y := by
  unfold JsNum.ofExact at h
  split_ifs at h with a1 a2
  simp only [JsNum.fin.injEq] at h
  rw [← h]
  exact ⟨rfl, not_le.mp a1, not_le.mp a2⟩

theorem ofExact_nonneg_cases (x : ℚ) (hx : 0 ≤ x) :
    JsNum.ofExact x = .posInf ∨
      (JsNum.ofExact x = .fin (roundDouble x) ∧ 0 ≤ roundDouble x ∧ roundDouble x < 2 ^ 1024) := by
  have h0 := roundDouble_nonneg x hx
  by_cases a1 : (2 : ℚ) ^ 1024 ≤ roundDouble x
  · left
    exact ofExact_eq_posInf x a1
  · right
    refine ⟨ofExact_eq_fin x _ rfl (not_le.mp a1) ?_, h0, not_le.mp a1⟩
    exact lt_of_lt_of_le (by norm_num) h0

theorem roundDouble_two_pow (k : ℕ) : roundDouble ((2 : ℚ) ^ k) = 2 ^ k := by
  have := roundDouble_exact 1 (k : ℤ) (by omega) (by norm_num)
  simpa using this

theorem roundDouble_le_two_pow (x : ℚ) (k : ℕ) (hx : 0 ≤ x) (h : x ≤ 2 ^ k) :
    roundDouble x ≤ 2 ^ k := by
  rw [← roundDouble_two_pow k]
  exact roundDouble_mono x _ hx h

theorem roundDouble_maxDouble : roundDouble maxDouble = maxDouble := by
  have := roundDouble_exact (2 ^ 53 - 1) 971 (by norm_num) (by norm_num)
  have e : (((2 ^ 53 - 1 : ℕ) : ℚ)) * 2 ^ (971 : ℤ) = maxDouble := by
    unfold maxDouble
    norm_num
  rw [e] at this
  exact this

theorem maxDouble_lt : maxDouble < 2 ^ 1024 := by
  unfold maxDouble
  norm_num

theorem roundDouble_le_maxDouble (x : ℚ) (hx : 0 ≤ x) (h : x ≤ maxDouble) :
    roundDouble x ≤ maxDouble := by
  rw [← roundDouble_maxDouble]
  exact roundDouble_mono x _ hx h

/-- The sum of two non-negative finite numbers that stays below the overflow
threshold is the rounded sum. -/
theorem add_fin_of_le (a b : ℚ) (ha : 0 ≤ a) (hb : 0 ≤ b) (h : a + b ≤ maxDouble) :
    JsNum.add (.fin a) (.fin b) = .fin (fadd a b) := by
  have h1 := roundDouble_le_maxDouble (a + b) (add_nonneg ha hb) h
  have h0 := roundDouble_nonneg (a + b) (add_nonneg ha hb)
  simp only [JsNum.add]
  exact ofExact_eq_fin _ _ rfl (lt_of_le_of_lt h1 maxDouble_lt)
    (lt_of_lt_of_le (by norm_num) h0)

theorem divCount_fin_of_le (s : ℚ) (n : ℕ) (hs : 0 ≤ s) (hn : 1 ≤ n) (h : s ≤ maxDouble) :
    JsNum.divCount (.fin s) n = .fin (fdiv s n) := by
  have hn' : (1 : ℚ) ≤ (n : ℚ) := by exact_mod_cast hn
  have hq : s / n ≤ maxDouble := le_trans (div_le_self hs hn') h
  have hq0 : 0 ≤ s / (n : ℚ) := div_nonneg hs (by linarith)
  have h1 := roundDouble_le_maxDouble _ hq0 hq
  have h0 := roundDouble_nonneg _ hq0
  simp only [JsNum.divCount]
  rw [if_neg (by omega)]
  exact ofExact_eq_fin _ _ rfl (lt_of_le_of_lt h1 maxDouble_lt)
    (lt_of_lt_of_le (by norm_num) h0)

/-! ## The valid entries of the feed -/

/-- A valid entry is `+Infinity` or a non-negative finite number. -/
theorem isValid_iff (a : JsNum) :
    a.isValid = true ↔ a = .posInf ∨ ∃ x, a = .fin x ∧ 0 ≤ x := by
  cases a <;> simp [JsNum.isValid, JsNum.isNaN, JsNum.geZero]

theorem mem_kpValues (data : List Item) (a : JsNum) :
    a ∈ kpValues data ↔ ∃ item ∈ data.drop 1, parseItem item = some a ∧ a.isValid = true := by
  simp only [kpValues, List.mem_filterMap, List.mem_map]
  constructor
  · rintro ⟨kp, ⟨item, hitem, rfl⟩, hkp⟩
    cases hp : parseItem item with
    | none => simp [hp] at hkp
    | some y =>
      rw [hp] at hkp
      by_cases hy : y.isValid = true
      · simp [Option.filter, hy] at hkp
        subst hkp
        exact ⟨item, hitem, hp, hy⟩
      · simp [Option.filter, hy] at hkp
  · rintro ⟨item, hitem, hp, hx⟩
    exact ⟨some a, ⟨item, hitem, hp⟩, by simp [Option.filter, hx]⟩

/-- A finite number returned by `parseFloat` is a double below `2^1024`. -/
theorem parseFloat_fin (c : Cell) (x : ℚ) (h : parseFloat c = .fin x) :
    roundDouble x = x ∧ x < 2 ^ 1024 := by
  have key : ∀ q : ℚ, JsNum.ofExact q = .fin x → roundDouble x = x ∧ x < 2 ^ 1024 := by
    intro q hq
    obtain ⟨e1, e2, -⟩ := ofExact_fin_inv q x hq
    exact ⟨by rw [e1, roundDouble_idem], e2⟩
  cases c with
  | other => simp [parseFloat] at h
  | num y => exact key y h
  | str s =>
    simp only [parseFloat, parseFloatStr] at h
    split_ifs at h
    cases hd : parseDecimal (splitSign s.data).1 (splitSign s.data).2 with
    | none => simp [hd] at h
    | some d =>
      rw [hd] at h
      exact key d.value h

theorem parseItem_fin (item : Item) (x : ℚ) (h : parseItem item = some (.fin x)) :
    roundDouble x = x ∧ x < 2 ^ 1024 := by
  cases item with
  | other => simp [parseItem] at h
  | array cells =>
    simp only [parseItem, List.get?_eq_getElem?] at h
    split_ifs at h
    cases hc : cells[1]? with
    | none => simp [hc] at h
    | some c =>
      rw [hc] at h
      simp only [Option.some.injEq] at h
      exact parseFloat_fin c x h

/-- Every valid entry is `+Infinity` or a non-negative double below `2^1024`. -/
theorem kpValues_entry (data : List Item) (a : JsNum) (ha : a ∈ kpValues data) :
    a = .posInf ∨ ∃ x, a = .fin x ∧ 0 ≤ x ∧ roundDouble x = x ∧ x < 2 ^ 1024 := by
  obtain ⟨item, -, hp, hv⟩ := (mem_kpValues data a).mp ha
  rcases (isValid_iff a).mp hv with h | ⟨x, hx, h0⟩
  · exact Or.inl h
  · subst hx
    obtain ⟨h1, h2⟩ := parseItem_fin item x hp
    exact Or.inr ⟨x, rfl, h0, h1, h2⟩

theorem sliceLast3_suffix {α : Type} (xs : List α) : sliceLast3 xs <:+ xs :=
  List.drop_suffix _ _

theorem sliceLast3_length {α : Type} (xs : List α) :
    (sliceLast3 xs).length = min 3 xs.length := by
  simp only [sliceLast3, List.length_drop]
  omega

theorem sliceLast3_ne_nil {α : Type} (xs : List α) (h : xs ≠ []) : sliceLast3 xs ≠ [] := by
  intro h0
  have := sliceLast3_length xs
  rw [h0] at this
  have hpos : 0 < xs.length := List.length_pos.mpr h
  simp at this
  omega

theorem mem_of_mem_sliceLast3 {α : Type} (xs : List α) (x : α) (h : x ∈ sliceLast3 xs) :
    x ∈ xs :=
  (sliceLast3_suffix xs).subset h

/-- The successful branch of `loadKpIndex`. -/
theorem loadKpIndex_of_valid (state : KpReading) (data : List Item) (h1 : data.length > 1)
    (h2 : kpValues data ≠ []) :
    loadKpIndex state (some (.array data)) =
      { state with
        kpIndex := jsMean (sliceLast3 (kpValues data))
        kpStatus := kpStatusOfNum (jsMean (sliceLast3 (kpValues data))) } := by
  have h3 : (kpValues data).length > 0 := List.length_pos.mpr h2
  simp only [loadKpIndex, h1, h3, if_true, jsMean]

/-- When no entry is valid, `loadKpIndex` leaves the reading as it is. -/
theorem loadKpIndex_of_no_valid (state : KpReading) (data : List Item)
    (h : kpValues data = []) : loadKpIndex state (some (.array data)) = state := by
  simp only [loadKpIndex, h, List.length_nil, gt_iff_lt, lt_self_iff_false, if_false]
  split_ifs <;> rfl

theorem kpStatusOfNum_fin (x : ℚ) : kpStatusOfNum (.fin x) = kpStatusOf x := by
  simp [kpStatusOfNum, kpStatusOf, JsNum.le]

/-! ## The double mean against the exact mean -/

theorem list_sum_nonneg (l : List ℚ) (hl : ∀ x ∈ l, 0 ≤ x) : 0 ≤ l.sum :=
  List.sum_nonneg hl

theorem InRange.nonneg {v : ℚ} (h : InRange v) : 0 ≤ v := by
  rcases h with h | ⟨h, -⟩
  · rw [h]
  · exact le_trans (by positivity) h

theorem InRange.le {v : ℚ} (h : InRange v) : v ≤ 2 ^ 1000 := by
  rcases h with h | ⟨-, h⟩
  · rw [h]; positivity
  · exact h

theorem InRange.normal {v : ℚ} (h : InRange v) : v = 0 ∨ 1 / 2 ^ 1000 ≤ v := by
  rcases h with h | ⟨h, -⟩
  · exact Or.inl h
  · exact Or.inr h

theorem roundDouble_inv_two_pow : roundDouble (1 / 2 ^ 1000) = 1 / 2 ^ 1000 := by
  have := roundDouble_exact 1 (-1000) (by norm_num) (by norm_num)
  have e : ((1 : ℕ) : ℚ) * 2 ^ (-1000 : ℤ) = 1 / 2 ^ 1000 := by
    rw [zpow_neg, Nat.cast_one, one_mul, one_div]
    norm_cast
  rw [e] at this
  exact this

/-- Rounding keeps a number that is zero or at least `2^-1000` so. -/
theorem roundDouble_normal (x : ℚ) (h : x = 0 ∨ 1 / 2 ^ 1000 ≤ x) :
    roundDouble x = 0 ∨ 1 / 2 ^ 1000 ≤ roundDouble x := by
  rcases h with h | h
  · left
    rw [h, roundDouble_zero]
  · right
    rw [← roundDouble_inv_two_pow]
    exact roundDouble_mono _ _ (by positivity) h

theorem normal_add (a b : ℚ) (ha0 : 0 ≤ a) (hb0 : 0 ≤ b) (ha : a = 0 ∨ 1 / 2 ^ 1000 ≤ a)
    (hb : b = 0 ∨ 1 / 2 ^ 1000 ≤ b) : a + b = 0 ∨ 1 / 2 ^ 1000 ≤ a + b := by
  rcases ha with ha | ha
  · rcases hb with hb | hb
    · left; rw [ha, hb, add_zero]
    · right; linarith
  · right; linarith

/-- The rounded running sum stays within `(1 ± 2^-53)^n` of the exact sum, as
long as no term underflows. -/
theorem foldl_fadd_bounds (l : List ℚ) (s : ℚ) (hs : 0 ≤ s) (hsn : s = 0 ∨ 1 / 2 ^ 1000 ≤ s)
    (hl : ∀ x ∈ l, 0 ≤ x ∧ (x = 0 ∨ 1 / 2 ^ 1000 ≤ x)) :
    0 ≤ l.foldl fadd s ∧
    (l.foldl fadd s = 0 ∨ 1 / 2 ^ 1000 ≤ l.foldl fadd s) ∧
    (s + l.sum) * (1 - 1 / 2 ^ 53) ^ l.length ≤ l.foldl fadd s ∧
    l.foldl fadd s ≤ (s + l.sum) * (1 + 1 / 2 ^ 53) ^ l.length := by
  induction l generalizing s with
  | nil =>
    simp only [List.foldl_nil, List.sum_nil, add_zero, List.length_nil, pow_zero, mul_one]
    exact ⟨hs, hsn, le_rfl, le_rfl⟩
  | cons x l ih =>
    obtain ⟨hx, hxn⟩ := hl x (List.mem_cons_self _ _)
    have hl' : ∀ y ∈ l, 0 ≤ y ∧ (y = 0 ∨ 1 / 2 ^ 1000 ≤ y) :=
      fun y hy => hl y (List.mem_cons_of_mem _ hy)
    have hsum : 0 ≤ l.sum := list_sum_nonneg l (fun y hy => (hl' y hy).1)
    have hsx : 0 ≤ s + x := add_nonneg hs hx
    have hsxn : s + x = 0 ∨ 1 / 2 ^ 1000 ≤ s + x := normal_add s x hs hx hsn hxn
    have hsxn' : s + x = 0 ∨ 1 / 2 ^ 1022 ≤ s + x := by
      rcases hsxn with h | h
      · exact Or.inl h
      · exact Or.inr (le_trans (by norm_num) h)
    have h0 : 0 ≤ fadd s x := roundDouble_nonneg _ hsx
    have h0n : fadd s x = 0 ∨ 1 / 2 ^ 1000 ≤ fadd s x := roundDouble_normal _ hsxn
    obtain ⟨e1, e2⟩ := roundDouble_error (s + x) hsxn'
    obtain ⟨i0, i0n, i1, i2⟩ := ih (fadd s x) h0 h0n hl'
    have hu1 : (0 : ℚ) ≤ 1 - 1 / 2 ^ 53 := by norm_num
    have hu2 : (0 : ℚ) ≤ 1 + 1 / 2 ^ 53 := by norm_num
    have hu3 : (1 : ℚ) - 1 / 2 ^ 53 ≤ 1 := by norm_num
    have hu4 : (1 : ℚ) ≤ 1 + 1 / 2 ^ 53 := by norm_num
    simp only [List.foldl_cons, List.sum_cons, List.length_cons]
    refine ⟨i0, i0n, le_trans ?_ i1, le_trans i2 ?_⟩
    · have key : (s + (x + l.sum)) * (1 - 1 / 2 ^ 53) ^ (l.length + 1) =
          (s + (x + l.sum)) * (1 - 1 / 2 ^ 53) * (1 - 1 / 2 ^ 53) ^ l.length := by ring
      rw [key]
      refine mul_le_mul_of_nonneg_right ?_ (pow_nonneg hu1 _)
      have : l.sum * (1 - 1 / 2 ^ 53) ≤ l.sum := mul_le_of_le_one_right hsum hu3
      have e1' : (s + x) * (1 - 1 / 2 ^ 53) ≤ fadd s x := e1
      linarith
    · have key : (s + (x + l.sum)) * (1 + 1 / 2 ^ 53) ^ (l.length + 1) =
          (s + (x + l.sum)) * (1 + 1 / 2 ^ 53) * (1 + 1 / 2 ^ 53) ^ l.length := by ring
      rw [key]
      refine mul_le_mul_of_nonneg_right ?_ (pow_nonneg hu2 _)
      have : l.sum ≤ l.sum * (1 + 1 / 2 ^ 53) := le_mul_of_one_le_right hsum hu4
      have e2' : fadd s x ≤ (s + x) * (1 + 1 / 2 ^ 53) := e2
      linarith

/-- For one to three entries that are zero or at least `2^-1000` the double
mean is within the fraction `2^-50` of the exact mean. -/
theorem doubleMean_bounds (l : List ℚ) (hl : ∀ x ∈ l, 0 ≤ x ∧ (x = 0 ∨ 1 / 2 ^ 1000 ≤ x))
    (hne : l ≠ []) (h3 : l.length ≤ 3) :
    exactMean l * (1 - 1 / 2 ^ 50) ≤ doubleMean l ∧
      doubleMean l ≤ exactMean l * (1 + 1 / 2 ^ 50) := by
  obtain ⟨f0, f0n, f1, f2⟩ := foldl_fadd_bounds l 0 le_rfl (Or.inl rfl) hl
  rw [zero_add] at f1 f2
  have hlen : 0 < l.length := List.length_pos.mpr hne
  have hn1 : (1 : ℚ) ≤ (l.length : ℚ) := by exact_mod_cast hlen
  have hn3 : (l.length : ℚ) ≤ 3 := by exact_mod_cast h3
  have hn : (0 : ℚ) ≤ (l.length : ℚ) := by linarith
  have hq : 0 ≤ l.foldl fadd 0 / (l.length : ℚ) := div_nonneg f0 hn
  have hqn : l.foldl fadd 0 / (l.length : ℚ) = 0 ∨
      1 / 2 ^ 1022 ≤ l.foldl fadd 0 / (l.length : ℚ) := by
    rcases f0n with h | h
    · left
      rw [h, zero_div]
    · right
      rw [le_div_iff₀ (by linarith)]
      calc (1 : ℚ) / 2 ^ 1022 * (l.length : ℚ) ≤ 1 / 2 ^ 1022 * 3 :=
            mul_le_mul_of_nonneg_left hn3 (by positivity)
        _ ≤ 1 / 2 ^ 1000 := by norm_num
        _ ≤ l.foldl fadd 0 := h
  obtain ⟨e1, e2⟩ := roundDouble_error _ hqn
  have hsum : 0 ≤ l.sum := list_sum_nonneg l (fun x hx => (hl x hx).1)
  have hmean : 0 ≤ exactMean l := div_nonneg hsum hn
  have hu1 : (0 : ℚ) ≤ 1 - 1 / 2 ^ 53 := by norm_num
  have hu2 : (0 : ℚ) ≤ 1 + 1 / 2 ^ 53 := by norm_num
  have hu3 : (1 : ℚ) - 1 / 2 ^ 53 ≤ 1 := by norm_num
  have hu4 : (1 : ℚ) ≤ 1 + 1 / 2 ^ 53 := by norm_num
  have p1 : (1 : ℚ) - 1 / 2 ^ 50 ≤ (1 - 1 / 2 ^ 53) ^ l.length * (1 - 1 / 2 ^ 53) := by
    have : ((1 : ℚ) - 1 / 2 ^ 53) ^ 3 ≤ (1 - 1 / 2 ^ 53) ^ l.length :=
      pow_le_pow_of_le_one hu1 hu3 h3
    calc (1 : ℚ) - 1 / 2 ^ 50 ≤ (1 - 1 / 2 ^ 53) ^ 3 * (1 - 1 / 2 ^ 53) := by norm_num
      _ ≤ (1 - 1 / 2 ^ 53) ^ l.length * (1 - 1 / 2 ^ 53) :=
        mul_le_mul_of_nonneg_right this hu1
  have p2 : ((1 : ℚ) + 1 / 2 ^ 53) ^ l.length * (1 + 1 / 2 ^ 53) ≤ 1 + 1 / 2 ^ 50 := by
    have : ((1 : ℚ) + 1 / 2 ^ 53) ^ l.length ≤ (1 + 1 / 2 ^ 53) ^ 3 :=
      pow_le_pow_right₀ hu4 h3
    calc ((1 : ℚ) + 1 / 2 ^ 53) ^ l.length * (1 + 1 / 2 ^ 53)
        ≤ (1 + 1 / 2 ^ 53) ^ 3 * (1 + 1 / 2 ^ 53) := mul_le_mul_of_nonneg_right this hu2
      _ ≤ 1 + 1 / 2 ^ 50 := by norm_num
  have g1 : exactMean l * ((1 - 1 / 2 ^ 53) ^ l.length * (1 - 1 / 2 ^ 53)) ≤ doubleMean l := by
    have : l.sum * (1 - 1 / 2 ^ 53) ^ l.length / (l.length : ℚ) ≤
        l.foldl fadd 0 / (l.length : ℚ) := div_le_div_of_nonneg_right f1 hn
    calc exactMean l * ((1 - 1 / 2 ^ 53) ^ l.length * (1 - 1 / 2 ^ 53))
        = l.sum * (1 - 1 / 2 ^ 53) ^ l.length / (l.length : ℚ) * (1 - 1 / 2 ^ 53) := by
          unfold exactMean
          ring
      _ ≤ l.foldl fadd 0 / (l.length : ℚ) * (1 - 1 / 2 ^ 53) :=
          mul_le_mul_of_nonneg_right this hu1
      _ ≤ doubleMean l := e1
  have g2 : doubleMean l ≤ exactMean l * ((1 + 1 / 2 ^ 53) ^ l.length * (1 + 1 / 2 ^ 53)) := by
    have : l.foldl fadd 0 / (l.length : ℚ) ≤
        l.sum * (1 + 1 / 2 ^ 53) ^ l.length / (l.length : ℚ) := div_le_div_of_nonneg_right f2 hn
    calc doubleMean l ≤ l.foldl fadd 0 / (l.length : ℚ) * (1 + 1 / 2 ^ 53) := e2
      _ ≤ l.sum * (1 + 1 / 2 ^ 53) ^ l.length / (l.length : ℚ) * (1 + 1 / 2 ^ 53) :=
          mul_le_mul_of_nonneg_right this hu2
      _ = exactMean l * ((1 + 1 / 2 ^ 53) ^ l.length * (1 + 1 / 2 ^ 53)) := by
          unfold exactMean
          ring
  exact ⟨le_trans (mul_le_mul_of_nonneg_left p1 hmean) g1,
    le_trans g2 (mul_le_mul_of_nonneg_left p2 hmean)⟩

/-- The exact mean of a non-empty list lies between any lower and upper bound of
its entries. -/
theorem exactMean_between (l : List ℚ) (hne : l ≠ []) (lo hi : ℚ)
    (h : ∀ x ∈ l, lo ≤ x ∧ x ≤ hi) : lo ≤ exactMean l ∧ exactMean l ≤ hi := by
  have hpos : (0 : ℚ) < (l.length : ℚ) := by
    exact_mod_cast List.length_pos.mpr hne
  have h1 : l.length • lo ≤ l.sum := List.card_nsmul_le_sum l lo (fun x hx => (h x hx).1)
  have h2 : l.sum ≤ l.length • hi := List.sum_le_card_nsmul l hi (fun x hx => (h x hx).2)
  rw [nsmul_eq_mul] at h1 h2
  unfold exactMean
  constructor
  · rw [le_div_iff₀ hpos]
    linarith
  · rw [div_le_iff₀ hpos]
    linarith

theorem doubleMean_singleton (a : ℚ) (ha : roundDouble a = a) : doubleMean [a] = a := by
  simp [doubleMean, fdiv, fadd, ha]

/-- The double mean of two non-negative doubles lies between them. -/
theorem doubleMean_pair (a b : ℚ) (ha : 0 ≤ a) (hb : 0 ≤ b) (hda : roundDouble a = a)
    (hdb : roundDouble b = b) :
    min a b ≤ doubleMean [a, b] ∧ doubleMean [a, b] ≤ max a b := by
  have hlo : 0 ≤ min a b := le_min ha hb
  have hhi : 0 ≤ max a b := le_trans ha (le_max_left _ _)
  have hdlo : roundDouble (min a b) = min a b := by
    rcases le_total a b with h | h
    · rw [min_eq_left h]; exact hda
    · rw [min_eq_right h]; exact hdb
  have hdhi : roundDouble (max a b) = max a b := by
    rcases le_total a b with h | h
    · rw [max_eq_right h]; exact hdb
    · rw [max_eq_left h]; exact hda
  have e : doubleMean [a, b] = roundDouble (roundDouble (a + b) / 2) := by
    simp only [doubleMean, fdiv, fadd, List.foldl_cons, List.foldl_nil, zero_add, hda,
      List.length_cons, List.length_nil]
    norm_num
  have s1 : 2 * min a b ≤ roundDouble (a + b) := by
    rw [← roundDouble_two_mul _ hlo hdlo]
    apply roundDouble_mono _ _ (by positivity)
    linarith [min_le_left a b, min_le_right a b]
  have s2 : roundDouble (a + b) ≤ 2 * max a b := by
    rw [← roundDouble_two_mul _ hhi hdhi]
    apply roundDouble_mono _ _ (add_nonneg ha hb)
    linarith [le_max_left a b, le_max_right a b]
  rw [e]
  constructor
  · calc min a b = roundDouble (min a b) := hdlo.symm
      _ ≤ roundDouble (roundDouble (a + b) / 2) :=
          roundDouble_mono _ _ hlo (by linarith)
  · calc roundDouble (roundDouble (a + b) / 2) ≤ roundDouble (max a b) :=
          roundDouble_mono _ _
            (div_nonneg (roundDouble_nonneg _ (add_nonneg ha hb)) (by norm_num))
            (by linarith)
      _ = max a b := hdhi

/-! ## The mean of the program against the double mean -/

theorem two_pow_le_maxDouble (k : ℕ) (hk : k ≤ 1023) : (2 : ℚ) ^ k ≤ maxDouble := by
  calc (2 : ℚ) ^ k ≤ 2 ^ 1023 := pow_le_pow_right₀ (by norm_num) hk
    _ ≤ maxDouble := by
      unfold maxDouble
      norm_num

/-- Adding up entries of at most `2^1000` does not overflow: the running sum of
the program is the rounded running sum. -/
theorem foldl_add_fin (vs : List ℚ) (s : ℚ) (k : ℕ) (hs0 : 0 ≤ s) (hs : s ≤ 2 ^ (1000 + k))
    (hv : ∀ v ∈ vs, 0 ≤ v ∧ v ≤ 2 ^ 1000) (hk : 1000 + k + vs.length ≤ 1023) :
    (vs.map JsNum.fin).foldl JsNum.add (.fin s) = .fin (vs.foldl fadd s) ∧
      0 ≤ vs.foldl fadd s ∧ vs.foldl fadd s ≤ 2 ^ (1000 + k + vs.length) := by
  induction vs generalizing s k with
  | nil => exact ⟨rfl, hs0, hs⟩
  | cons v vs ih =>
    obtain ⟨hv0, hv1⟩ := hv v (List.mem_cons_self _ _)
    have hv' : ∀ y ∈ vs, 0 ≤ y ∧ y ≤ 2 ^ 1000 := fun y hy => hv y (List.mem_cons_of_mem _ hy)
    simp only [List.length_cons] at hk
    have hsum : s + v ≤ 2 ^ (1000 + (k + 1)) := by
      have h1 : (2 : ℚ) ^ 1000 ≤ 2 ^ (1000 + k) := pow_le_pow_right₀ (by norm_num) (by omega)
      have e : (2 : ℚ) ^ (1000 + (k + 1)) = 2 ^ (1000 + k) + 2 ^ (1000 + k) := by
        rw [← add_assoc, pow_add _ (1000 + k) 1]
        ring
      rw [e]
      linarith
    have h1 : fadd s v ≤ 2 ^ (1000 + (k + 1)) :=
      roundDouble_le_two_pow _ _ (add_nonneg hs0 hv0) hsum
    have h0 : 0 ≤ fadd s v := roundDouble_nonneg _ (add_nonneg hs0 hv0)
    have hadd : JsNum.add (.fin s) (.fin v) = .fin (fadd s v) :=
      add_fin_of_le s v hs0 hv0 (le_trans hsum (two_pow_le_maxDouble _ (by omega)))
    obtain ⟨i1, i2, i3⟩ := ih (fadd s v) (k + 1) h0 h1 hv' (by omega)
    simp only [List.map_cons, List.foldl_cons, hadd, List.length_cons]
    refine ⟨i1, i2, ?_⟩
    have e : 1000 + k + (vs.length + 1) = 1000 + (k + 1) + vs.length := by omega
    rw [e]
    exact i3

/-- For one to three finite entries between 0 and `2^1000` the mean of the
program is finite and is the double mean. -/
theorem jsMean_fin (vs : List ℚ) (hne : vs ≠ []) (h3 : vs.length ≤ 3)
    (hv : ∀ v ∈ vs, 0 ≤ v ∧ v ≤ 2 ^ 1000) :
    jsMean (vs.map JsNum.fin) = .fin (doubleMean vs) := by
  obtain ⟨e, h0, h1⟩ := foldl_add_fin vs 0 0 le_rfl (by positivity) hv (by omega)
  unfold jsMean doubleMean
  rw [e, List.length_map]
  exact divCount_fin_of_le _ _ h0 (List.length_pos.mpr hne)
    (le_trans h1 (two_pow_le_maxDouble _ (by omega)))

theorem add_valid (a b : JsNum) (ha : a.isValid = true) (hb : b.isValid = true) :
    (a.add b).isValid = true := by
  rcases (isValid_iff a).mp ha with rfl | ⟨x, rfl, hx⟩
  · rcases (isValid_iff b).mp hb with rfl | ⟨y, rfl, -⟩ <;> rfl
  · rcases (isValid_iff b).mp hb with rfl | ⟨y, rfl, hy⟩
    · rfl
    · rw [isValid_iff]
      simp only [JsNum.add]
      rcases ofExact_nonneg_cases (x + y) (add_nonneg hx hy) with h | ⟨h, h0, -⟩
      · exact Or.inl h
      · exact Or.inr ⟨_, h, h0⟩

theorem foldl_add_valid (l : List JsNum) (s : JsNum) (hs : s.isValid = true)
    (hl : ∀ a ∈ l, a.isValid = true) : (l.foldl JsNum.add s).isValid = true := by
  induction l generalizing s with
  | nil => exact hs
  | cons a l ih =>
    exact ih (s.add a) (add_valid s a hs (hl a (List.mem_cons_self _ _)))
      (fun b hb => hl b (List.mem_cons_of_mem _ hb))

theorem divCount_valid (a : JsNum) (n : ℕ) (hn : 1 ≤ n) (ha : a.isValid = true) :
    (a.divCount n).isValid = true := by
  rcases (isValid_iff a).mp ha with rfl | ⟨x, rfl, hx⟩
  · rfl
  · rw [isValid_iff]
    simp only [JsNum.divCount]
    rw [if_neg (by omega)]
    rcases ofExact_nonneg_cases (x / n) (div_nonneg hx (by positivity)) with h | ⟨h, h0, -⟩
    · exact Or.inl h
    · exact Or.inr ⟨_, h, h0⟩

/-- The mean of valid entries is `+Infinity` or a non-negative finite number. -/
theorem jsMean_valid (l : List JsNum) (hne : l ≠ []) (hl : ∀ a ∈ l, a.isValid = true) :
    (jsMean l).isValid = true :=
  divCount_valid _ _ (List.length_pos.mpr hne)
    (foldl_add_valid l (.fin 0) (by simp [JsNum.isValid, JsNum.isNaN, JsNum.geZero]) hl)

theorem kpValues_valid (data : List Item) (a : JsNum) (ha : a ∈ kpValues data) :
    a.isValid = true := by
  obtain ⟨-, -, -, h⟩ := (mem_kpValues data a).mp ha
  exact h

/-- The mean of a single entry is the entry. -/
theorem jsMean_singleton (a : JsNum)
    (ha : a = .posInf ∨ ∃ x, a = .fin x ∧ 0 ≤ x ∧ roundDouble x = x ∧ x < 2 ^ 1024) :
    jsMean [a] = a := by
  rcases ha with rfl | ⟨x, rfl, hx, hd, hlt⟩
  · rfl
  · have hneg : -(2 : ℚ) ^ 1024 < x := lt_of_lt_of_le (by norm_num) hx
    have e1 : JsNum.add (.fin 0) (.fin x) = .fin x := by
      simp only [JsNum.add, zero_add]
      exact ofExact_eq_fin x x hd hlt hneg
    simp only [jsMean, List.foldl_cons, List.foldl_nil, e1, List.length_cons, List.length_nil,
      JsNum.divCount]
    rw [if_neg (by omega)]
    apply ofExact_eq_fin _ _ _ hlt hneg
    simp [hd]

/-- The mean of two finite entries whose sum does not exceed the largest finite
double is the double mean. -/
theorem jsMean_pair (a b : ℚ) (ha : 0 ≤ a) (hb : 0 ≤ b) (hda : roundDouble a = a)
    (h : a + b ≤ maxDouble) : jsMean [.fin a, .fin b] = .fin (doubleMean [a, b]) := by
  have ha' : a ≤ maxDouble := by linarith
  have e1 : JsNum.add (.fin 0) (.fin a) = .fin (fadd 0 a) :=
    add_fin_of_le 0 a le_rfl ha (by rw [zero_add]; exact ha')
  have e0 : fadd 0 a = a := by rw [fadd, zero_add, hda]
  have e2 : JsNum.add (.fin a) (.fin b) = .fin (fadd a b) := add_fin_of_le a b ha hb h
  have h0 : 0 ≤ fadd a b := roundDouble_nonneg _ (add_nonneg ha hb)
  have h1 : fadd a b ≤ maxDouble := roundDouble_le_maxDouble _ (add_nonneg ha hb) h
  simp only [jsMean, doubleMean, List.foldl_cons, List.foldl_nil, e1, e0, e2]
  exact divCount_fin_of_le _ _ h0 (by simp) h1

theorem kpValues_ne_nil_length (data : List Item) (h : kpValues data ≠ []) :
    data.length > 1 := by
  by_contra hlen
  apply h
  have : data.drop 1 = [] := List.drop_eq_nil_of_le (by omega)
  simp [kpValues, this]

/-! ## Concrete readings -/

/-- The value of `parseFloat` on a string that starts, after white space and
sign, with a decimal literal whose double is finite. -/
theorem parseFloatStr_of_decimal (s : String) (d : Decimal) (y : ℚ)
    (hi : "Infinity".data.isPrefixOf (splitSign s.data).2 = false)
    (hp : parseDecimal (splitSign s.data).1 (splitSign s.data).2 = some d)
    (hr : roundDouble d.value = y) (h1 : y < 2 ^ 1024) (h2 : -2 ^ 1024 < y) :
    parseFloatStr s = .fin y := by
  simp only [parseFloatStr, hi, hp, Bool.false_eq_true, if_false]
  exact ofExact_eq_fin _ _ hr h1 h2

theorem parseFloat_str_2 : parseFloat (.str "2") = .fin 2 := by
  have hr : roundDouble 2 = 2 := by simpa using roundDouble_natCast 2 (by norm_num)
  exact parseFloatStr_of_decimal "2" { neg := false, mant := 2, exp := 0 } 2 (by decide)
    (by decide) (by simp [Decimal.value, hr]) (by norm_num) (by norm_num)

theorem parseFloat_str_4 : parseFloat (.str "4") = .fin 4 := by
  have hr : roundDouble 4 = 4 := by simpa using roundDouble_natCast 4 (by norm_num)
  exact parseFloatStr_of_decimal "4" { neg := false, mant := 4, exp := 0 } 4 (by decide)
    (by decide) (by simp [Decimal.value, hr]) (by norm_num) (by norm_num)

theorem parseFloat_str_6 : parseFloat (.str "6") = .fin 6 := by
  have hr : roundDouble 6 = 6 := by simpa using roundDouble_natCast 6 (by norm_num)
  exact parseFloatStr_of_decimal "6" { neg := false, mant := 6, exp := 0 } 6 (by decide)
    (by decide) (by simp [Decimal.value, hr]) (by norm_num) (by norm_num)

/-- The double that the text "5.67" denotes. -/
theorem parseFloat_str_5_67 :
    parseFloat (.str "5.67") = .fin (3191926235898839 / 2 ^ 49) := by
  have hr : roundDouble (567 / 100) = 3191926235898839 / 2 ^ 49 := by
    rw [roundDouble_eval (567 / 100) 2 6383852471797678 (by norm_num) (by norm_num)
      (by norm_num) (by norm_num) (by norm_num) (by norm_num)]
    norm_num
  have hv : Decimal.value { neg := false, mant := 567, exp := -2 } = 567 / 100 := by
    norm_num [Decimal.value]
  exact parseFloatStr_of_decimal "5.67" { neg := false, mant := 567, exp := -2 } _ (by decide)
    (by decide) (by rw [hv, hr]) (by norm_num) (by norm_num)

/-- The double that the text "1.7e308" denotes. -/
theorem parseFloat_str_1_7e308 :
    parseFloat (.str "1.7e308") = .fin (8517715530038134 * 2 ^ 971) := by
  have hr : roundDouble (17 * 10 ^ 307) = 8517715530038134 * 2 ^ 971 := by
    rw [roundDouble_eval (17 * 10 ^ 307) 1023 8517715530038134 (by norm_num) (by norm_num)
      (by norm_num) (by norm_num) (by norm_num) (by norm_num)]
    norm_num
  have hv : Decimal.value { neg := false, mant := 17, exp := 307 } = 17 * 10 ^ 307 := by
    norm_num [Decimal.value]
  exact parseFloatStr_of_decimal "1.7e308" { neg := false, mant := 17, exp := 307 } _
    (by decide) (by decide) (by rw [hv, hr]) (by norm_num) (by norm_num)

theorem doubleMean_2_4_6 : doubleMean [2, 4, 6] = 4 := by
  have r2 : roundDouble 2 = 2 := by simpa using roundDouble_natCast 2 (by norm_num)
  have r6 : roundDouble 6 = 6 := by simpa using roundDouble_natCast 6 (by norm_num)
  have r12 : roundDouble 12 = 12 := by simpa using roundDouble_natCast 12 (by norm_num)
  have r4 : roundDouble 4 = 4 := by simpa using roundDouble_natCast 4 (by norm_num)
  have s1 : fadd 0 2 = 2 := by rw [fadd]; norm_num [r2]
  have s2 : fadd 2 4 = 6 := by rw [fadd]; norm_num [r6]
  have s3 : fadd 6 6 = 12 := by rw [fadd]; norm_num [r12]
  have q : fdiv 12 3 = 4 := by rw [fdiv]; norm_num [r4]
  simp only [doubleMean, List.foldl_cons, List.foldl_nil, s1, s2, s3, List.length_cons,
    List.length_nil]
  norm_num [q]

theorem doubleMean_4_6 : doubleMean [4, 6] = 5 := by
  have r4 : roundDouble 4 = 4 := by simpa using roundDouble_natCast 4 (by norm_num)
  have r10 : roundDouble 10 = 10 := by simpa using roundDouble_natCast 10 (by norm_num)
  have r5 : roundDouble 5 = 5 := by simpa using roundDouble_natCast 5 (by norm_num)
  have s1 : fadd 0 4 = 4 := by rw [fadd]; norm_num [r4]
  have s2 : fadd 4 6 = 10 := by rw [fadd]; norm_num [r10]
  have q : fdiv 10 2 = 5 := by rw [fdiv]; norm_num [r5]
  simp only [doubleMean, List.foldl_cons, List.foldl_nil, s1, s2, List.length_cons,
    List.length_nil]
  norm_num [q]

/-- Three readings of 5.67: the sum 17.01 falls half-way between two doubles and
is rounded down, and the quotient is one unit in the last place below 5.67. -/
theorem doubleMean_5_67 :
    doubleMean [3191926235898839 / 2 ^ 49, 3191926235898839 / 2 ^ 49,
      3191926235898839 / 2 ^ 49] = 6383852471797677 / 2 ^ 50 := by
  have s1 : fadd 0 (3191926235898839 / 2 ^ 49) = 3191926235898839 / 2 ^ 49 := by
    have := roundDouble_exact 3191926235898839 (-49) (by norm_num) (by norm_num)
    rw [fadd, zero_add]
    norm_num at this ⊢
    exact this
  have s2 : fadd (3191926235898839 / 2 ^ 49) (3191926235898839 / 2 ^ 49) =
      3191926235898839 / 2 ^ 48 := by
    have := roundDouble_exact 3191926235898839 (-48) (by norm_num) (by norm_num)
    rw [fadd]
    norm_num at this ⊢
    exact this
  have s3 : fadd (3191926235898839 / 2 ^ 48) (3191926235898839 / 2 ^ 49) =
      4787889353848258 / 2 ^ 48 := by
    rw [fadd, roundDouble_eval _ 4 4787889353848258 (by norm_num) (by norm_num)
      (by norm_num) (by norm_num) (by norm_num) (by norm_num)]
    norm_num
  have q : fdiv (4787889353848258 / 2 ^ 48) 3 = 6383852471797677 / 2 ^ 50 := by
    rw [fdiv, roundDouble_eval _ 2 6383852471797677 (by norm_num) (by norm_num)
      (by norm_num) (by norm_num) (by norm_num) (by norm_num)]
    norm_num
  simp only [doubleMean, List.foldl_cons, List.foldl_nil, s1, s2, s3, List.length_cons,
    List.length_nil]
  have c : ((0 + 1 + 1 + 1 : ℕ) : ℚ) = 3 := by norm_num
  rw [c, q]

theorem kpValues_2_4_6 :
    kpValues [.array [.str "time", .str "kp"], .array [.str "t0", .str "2"],
      .array [.str "t1", .str "4"], .array [.str "t2", .str "6"]] =
      [.fin 2, .fin 4, .fin 6] := by
  simp [kpValues, parseItem, parseFloat_str_2, parseFloat_str_4, parseFloat_str_6,
    Option.filter, JsNum.isValid, JsNum.isNaN, JsNum.geZero]

theorem kpValues_headless :
    kpValues [.array [.str "t0", .str "2"], .array [.str "t1", .str "4"],
      .array [.str "t2", .str "6"]] = [.fin 4, .fin 6] := by
  simp [kpValues, parseItem, parseFloat_str_4, parseFloat_str_6,
    Option.filter, JsNum.isValid, JsNum.isNaN, JsNum.geZero]

theorem kpValues_three_5_67 :
    kpValues [.array [.str "time", .str "kp"], .array [.str "t0", .str "5.67"],
      .array [.str "t1", .str "5.67"], .array [.str "t2", .str "5.67"]] =
      [.fin (3191926235898839 / 2 ^ 49), .fin (3191926235898839 / 2 ^ 49),
        .fin (3191926235898839 / 2 ^ 49)] := by
  have hpos : (0 : ℚ) ≤ 3191926235898839 / 2 ^ 49 := by norm_num
  simp [kpValues, parseItem, parseFloat_str_5_67, Option.filter, JsNum.isValid, JsNum.isNaN,
    JsNum.geZero, hpos]

theorem kpValues_two_1_7e308 :
    kpValues [.array [.str "time", .str "kp"], .array [.str "t0", .str "1.7e308"],
      .array [.str "t1", .str "1.7e308"]] =
      [.fin (8517715530038134 * 2 ^ 971), .fin (8517715530038134 * 2 ^ 971)] := by
  have hpos : (0 : ℚ) ≤ 8517715530038134 * 2 ^ 971 := by positivity
  simp [kpValues, parseItem, parseFloat_str_1_7e308, Option.filter, JsNum.isValid,
    JsNum.isNaN, JsNum.geZero, hpos]

theorem kpValues_not_a_number :
    kpValues [.array [.str "time", .str "kp"], .array [.str "t0", .str "n/a"]] = [] := by
  decide

theorem loadKpIndex_2_4_6 (held : KpReading) :
    loadKpIndex held (some (.array
      [.array [.str "time", .str "kp"], .array [.str "t0", .str "2"],
        .array [.str "t1", .str "4"], .array [.str "t2", .str "6"]])) =
      { kpIndex := .fin 4, kpStatus := "moderado" } := by
  have hm : jsMean (sliceLast3 [JsNum.fin 2, .fin 4, .fin 6]) = .fin 4 := by
    have := jsMean_fin [2, 4, 6] (by simp) (by simp) (by
      intro v hv
      simp at hv
      rcases hv with rfl | rfl | rfl <;> exact ⟨by norm_num, by norm_num⟩)
    rw [doubleMean_2_4_6] at this
    exact this
  rw [loadKpIndex_of_valid held _ (by decide) (by rw [kpValues_2_4_6]; simp), kpValues_2_4_6,
    hm, kpStatusOfNum_fin]
  norm_num [kpStatusOf]

theorem loadKpIndex_headless (held : KpReading) :
    loadKpIndex held (some (.array
      [.array [.str "t0", .str "2"], .array [.str "t1", .str "4"],
        .array [.str "t2", .str "6"]])) =
      { kpIndex := .fin 5, kpStatus := "moderado" } := by
  have hm : jsMean (sliceLast3 [JsNum.fin 4, .fin 6]) = .fin 5 := by
    have := jsMean_fin [4, 6] (by simp) (by simp) (by
      intro v hv
      simp at hv
      rcases hv with rfl | rfl <;> exact ⟨by norm_num, by norm_num⟩)
    rw [doubleMean_4_6] at this
    exact this
  rw [loadKpIndex_of_valid held _ (by decide) (by rw [kpValues_headless]; simp),
    kpValues_headless, hm, kpStatusOfNum_fin]
  norm_num [kpStatusOf]

theorem loadKpIndex_three_5_67 (held : KpReading) :
    loadKpIndex held (some (.array
      [.array [.str "time", .str "kp"], .array [.str "t0", .str "5.67"],
        .array [.str "t1", .str "5.67"], .array [.str "t2", .str "5.67"]])) =
      { kpIndex := .fin (6383852471797677 / 2 ^ 50), kpStatus := "alto" } := by
  have hm : jsMean (sliceLast3 [JsNum.fin (3191926235898839 / 2 ^ 49),
      .fin (3191926235898839 / 2 ^ 49), .fin (3191926235898839 / 2 ^ 49)]) =
      .fin (6383852471797677 / 2 ^ 50) := by
    have := jsMean_fin [3191926235898839 / 2 ^ 49, 3191926235898839 / 2 ^ 49,
      3191926235898839 / 2 ^ 49] (by simp) (by simp) (by
      intro v hv
      simp at hv
      rw [hv]
      exact ⟨by norm_num, by norm_num⟩)
    rw [doubleMean_5_67] at this
    exact this
  rw [loadKpIndex_of_valid held _ (by decide) (by rw [kpValues_three_5_67]; simp),
    kpValues_three_5_67, hm, kpStatusOfNum_fin]
  norm_num [kpStatusOf]

theorem roundDouble_1_7e308 :
    roundDouble (8517715530038134 * 2 ^ 971) = 8517715530038134 * 2 ^ 971 := by
  have := roundDouble_exact 8517715530038134 971 (by norm_num) (by norm_num)
  norm_num at this ⊢
  exact this

theorem roundDouble_twice_1_7e308 :
    roundDouble (8517715530038134 * 2 ^ 971 + 8517715530038134 * 2 ^ 971) =
      8517715530038134 * 2 ^ 972 := by
  have := roundDouble_exact 8517715530038134 972 (by norm_num) (by norm_num)
  norm_num at this ⊢
  exact this

theorem add_zero_1_7e308 :
    JsNum.add (.fin 0) (.fin (8517715530038134 * 2 ^ 971)) =
      .fin (8517715530038134 * 2 ^ 971) := by
  simp only [JsNum.add, zero_add]
  exact ofExact_eq_fin _ _ roundDouble_1_7e308 (by norm_num) (by norm_num)

theorem add_twice_1_7e308 :
    JsNum.add (.fin (8517715530038134 * 2 ^ 971)) (.fin (8517715530038134 * 2 ^ 971)) =
      .posInf := by
  simp only [JsNum.add]
  apply ofExact_eq_posInf
  rw [roundDouble_twice_1_7e308]
  norm_num

theorem jsMean_pair_of_overflow (a : ℚ) (h0 : JsNum.add (.fin 0) (.fin a) = .fin a)
    (h1 : JsNum.add (.fin a) (.fin a) = .posInf) :
    jsMean (sliceLast3 [JsNum.fin a, .fin a]) = .posInf := by
  show JsNum.divCount (JsNum.add (JsNum.add (.fin 0) (.fin a)) (.fin a)) 2 = .posInf
  rw [h0, h1]
  rfl

theorem jsMean_two_1_7e308 :
    jsMean (sliceLast3 [JsNum.fin (8517715530038134 * 2 ^ 971),
      .fin (8517715530038134 * 2 ^ 971)]) = .posInf :=
  jsMean_pair_of_overflow _ add_zero_1_7e308 add_twice_1_7e308

/-- Two readings of 1.7e308: their sum is above the largest finite double, so
the sum and the mean are `+Infinity`. -/
theorem loadKpIndex_two_1_7e308 (held : KpReading) :
    loadKpIndex held (some (.array
      [.array [.str "time", .str "kp"], .array [.str "t0", .str "1.7e308"],
        .array [.str "t1", .str "1.7e308"]])) =
      { kpIndex := .posInf, kpStatus := "tormenta" } := by
  rw [loadKpIndex_of_valid held _ (by decide) (by rw [kpValues_two_1_7e308]; simp),
    kpValues_two_1_7e308, jsMean_two_1_7e308]
  rfl

/-! ## The Kp aggregation (C11, C12, C17) -/

/-- C11, as the code has it: `loadKpIndex` skips the first row of the data (the
header) and takes as valid the later rows whose second cell parses to
`+Infinity` or to a non-negative double, in sequence order; it sets the Kp value
to the mean of the last 3 of them (of all when fewer than 3) as line 335
computes it, in double arithmetic with overflow to `+Infinity`, and the status
to the label of that value.  When the entries averaged are finite and each is 0
or between 2^-1000 and 2^1000, the Kp value is finite and is the arithmetic mean
of those entries up to the fraction 2^-50. -/
theorem kp_mean_after_header (held : KpReading) (data : List Item)
    (h : kpValues data ≠ []) :
    kpValues data =
      (data.drop 1).filterMap (fun item => (parseItem item).filter JsNum.isValid) ∧
    (∀ a ∈ kpValues data, a = .posInf ∨ ∃ x, a = .fin x ∧ 0 ≤ x ∧ roundDouble x = x) ∧
    sliceLast3 (kpValues data) <:+ kpValues data ∧
    (sliceLast3 (kpValues data)).length = min 3 (kpValues data).length ∧
    (loadKpIndex held (some (.array data))).kpIndex = jsMean (sliceLast3 (kpValues data)) ∧
    (loadKpIndex held (some (.array data))).kpStatus =
      kpStatusOfNum (jsMean (sliceLast3 (kpValues data))) ∧
    (∀ vs : List ℚ, sliceLast3 (kpValues data) = vs.map JsNum.fin → (∀ v ∈ vs, InRange v) →
      ∃ m : ℚ, (loadKpIndex held (some (.array data))).kpIndex = .fin m ∧
        (loadKpIndex held (some (.array data))).kpStatus = kpStatusOf m ∧
        exactMean vs * (1 - 1 / 2 ^ 50) ≤ m ∧ m ≤ exactMean vs * (1 + 1 / 2 ^ 50)) := by
  rw [loadKpIndex_of_valid held data (kpValues_ne_nil_length data h) h]
  refine ⟨?_, ?_, sliceLast3_suffix _, sliceLast3_length _, rfl, rfl, ?_⟩
  · rw [kpValues, List.filterMap_map]
    rfl
  · intro a ha
    rcases kpValues_entry data a ha with h1 | ⟨x, h1, h2, h3, -⟩
    · exact Or.inl h1
    · exact Or.inr ⟨x, h1, h2, h3⟩
  · intro vs hvs hr
    have hne : vs ≠ [] := by
      intro h0
      rw [h0] at hvs
      exact sliceLast3_ne_nil _ h hvs
    have h3 : vs.length ≤ 3 := by
      have := sliceLast3_length (kpValues data)
      rw [hvs, List.length_map] at this
      rw [this]
      exact min_le_left _ _
    have hm := jsMean_fin vs hne h3 (fun v hv => ⟨(hr v hv).nonneg, (hr v hv).le⟩)
    have hb := doubleMean_bounds vs (fun v hv => ⟨(hr v hv).nonneg, (hr v hv).normal⟩) hne h3
    refine ⟨doubleMean vs, ?_, ?_, hb.1, hb.2⟩
    · show jsMean (sliceLast3 (kpValues data)) = _
      rw [hvs, hm]
    · show kpStatusOfNum (jsMean (sliceLast3 (kpValues data))) = _
      rw [hvs, hm, kpStatusOfNum_fin]

/-- C11, witness: for the data made of a header row followed by
["t0","2"], ["t1","4"], ["t2","6"], read at start-up, the Kp value is 4 and the
status "moderado". -/
theorem kp_mean_after_header_witness :
    (loadKpIndex state.reading (some (.array
      [.array [.str "time", .str "kp"], .array [.str "t0", .str "2"],
        .array [.str "t1", .str "4"], .array [.str "t2", .str "6"]]))).kpIndex = .fin 4 ∧
    (loadKpIndex state.reading (some (.array
      [.array [.str "time", .str "kp"], .array [.str "t0", .str "2"],
        .array [.str "t1", .str "4"], .array [.str "t2", .str "6"]]))).kpStatus
      = "moderado" := by
  have hv := kpValues_2_4_6
  have h := kp_mean_after_header state.reading
    [.array [.str "time", .str "kp"], .array [.str "t0", .str "2"],
      .array [.str "t1", .str "4"], .array [.str "t2", .str "6"]] (by rw [hv]; simp)
  obtain ⟨-, -, -, -, -, -, hb⟩ := h
  obtain ⟨m, hk, hs, -, -⟩ := hb [2, 4, 6] (by rw [hv]; rfl) (by
    intro v hv
    simp at hv
    rcases hv with rfl | rfl | rfl <;> exact Or.inr ⟨by norm_num, by norm_num⟩)
  have e := loadKpIndex_2_4_6 state.reading
  rw [e] at hk hs ⊢
  exact ⟨rfl, rfl⟩

/-- C11, counterexample to the claim as written: when the data is the three-row
series ["t0","2"], ["t1","4"], ["t2","6"] itself, the first row is skipped as
the header and the Kp value is 5, the mean of 4 and 6, not 4.  And with a header
row followed by three rows of value "5.67", the Kp value is
6383852471797677 / 2^50, which is not the arithmetic mean of the three entries,
the double 3191926235898839 / 2^49. -/
theorem kp_mean_counterexample :
    (loadKpIndex state.reading (some (.array
      [.array [.str "t0", .str "2"], .array [.str "t1", .str "4"],
        .array [.str "t2", .str "6"]]))).kpIndex = .fin 5 ∧
    (loadKpIndex state.reading (some (.array
      [.array [.str "t0", .str "2"], .array [.str "t1", .str "4"],
        .array [.str "t2", .str "6"]]))).kpIndex ≠ .fin 4 ∧
    sliceLast3 (kpValues
      [.array [.str "time", .str "kp"], .array [.str "t0", .str "5.67"],
        .array [.str "t1", .str "5.67"], .array [.str "t2", .str "5.67"]]) =
      [3191926235898839 / 2 ^ 49, 3191926235898839 / 2 ^ 49,
        3191926235898839 / 2 ^ 49].map JsNum.fin ∧
    (loadKpIndex state.reading (some (.array
      [.array [.str "time", .str "kp"], .array [.str "t0", .str "5.67"],
        .array [.str "t1", .str "5.67"], .array [.str "t2", .str "5.67"]]))).kpIndex ≠
      .fin (exactMean [3191926235898839 / 2 ^ 49, 3191926235898839 / 2 ^ 49,
        3191926235898839 / 2 ^ 49]) := by
  rw [loadKpIndex_headless, loadKpIndex_three_5_67, kpValues_three_5_67]
  refine ⟨rfl, ?_, rfl, ?_⟩
  · simp only [ne_eq, JsNum.fin.injEq]
    norm_num
  · simp only [ne_eq, JsNum.fin.injEq, exactMean]
    norm_num

/-- C12, the code at the failing input: for a feed whose only data row has the
value "n/a" there is no valid entry and `loadKpIndex` returns the reading it was
given, whatever it is; with the reading 7 / "alto" held from an earlier refresh
the reading in effect afterwards is 7 / "alto", not the fallback 2 / "bajo".
The `catch` path (failed fetch or JSON parsing) does set the fallback, whatever
reading was held. -/
theorem no_valid_entries_keeps_reading (held : KpReading) :
    kpValues [.array [.str "time", .str "kp"], .array [.str "t0", .str "n/a"]] = [] ∧
    loadKpIndex held (some (.array
      [.array [.str "time", .str "kp"], .array [.str "t0", .str "n/a"]])) = held ∧
    loadKpIndex { kpIndex := .fin 7, kpStatus := "alto" } (some (.array
      [.array [.str "time", .str "kp"], .array [.str "t0", .str "n/a"]])) =
      { kpIndex := .fin 7, kpStatus := "alto" } ∧
    (loadKpIndex { kpIndex := .fin 7, kpStatus := "alto" } (some (.array
      [.array [.str "time", .str "kp"], .array [.str "t0", .str "n/a"]]))).kpIndex ≠ .fin 2 ∧
    (loadKpIndex { kpIndex := .fin 7, kpStatus := "alto" } (some (.array
      [.array [.str "time", .str "kp"], .array [.str "t0", .str "n/a"]]))).kpStatus ≠ "bajo" ∧
    loadKpIndex held none = { kpIndex := .fin 2, kpStatus := "bajo" } := by
  have hv := kpValues_not_a_number
  rw [loadKpIndex_of_no_valid held _ hv, loadKpIndex_of_no_valid _ _ hv]
  refine ⟨hv, rfl, rfl, ?_, by decide, rfl⟩
  simp only [ne_eq, JsNum.fin.injEq]
  norm_num

/-- C17, as the code has it: whenever the data has at least one valid entry, the
Kp value computed by `loadKpIndex` is `+Infinity` or a non-negative finite
number; it equals the single entry when only one is valid; when two finite
entries are valid and their sum does not exceed the largest finite double, it
lies between the two; and when the up to three entries averaged are finite, each
0 or between 2^-1000 and 2^1000, and lie between a lower bound `lo` and an upper
bound `hi`, it is finite and lies between `lo * (1 - 2^-50)` and
`hi * (1 + 2^-50)`, the sum and the quotient being rounded to doubles. -/
theorem kp_value_range (held : KpReading) (data : List Item) (h : kpValues data ≠ []) :
    ((loadKpIndex held (some (.array data))).kpIndex = .posInf ∨
      ∃ m : ℚ, (loadKpIndex held (some (.array data))).kpIndex = .fin m ∧ 0 ≤ m) ∧
    (∀ a, kpValues data = [a] → (loadKpIndex held (some (.array data))).kpIndex = a) ∧
    (∀ a b : ℚ, kpValues data = [.fin a, .fin b] → a + b ≤ maxDouble →
      ∃ m : ℚ, (loadKpIndex held (some (.array data))).kpIndex = .fin m ∧
        min a b ≤ m ∧ m ≤ max a b) ∧
    (∀ (vs : List ℚ) (lo hi : ℚ), sliceLast3 (kpValues data) = vs.map JsNum.fin →
      (∀ v ∈ vs, InRange v ∧ lo ≤ v ∧ v ≤ hi) →
      ∃ m : ℚ, (loadKpIndex held (some (.array data))).kpIndex = .fin m ∧
        lo * (1 - 1 / 2 ^ 50) ≤ m ∧ m ≤ hi * (1 + 1 / 2 ^ 50)) := by
  have hne : sliceLast3 (kpValues data) ≠ [] := sliceLast3_ne_nil _ h
  have hkp : (loadKpIndex held (some (.array data))).kpIndex =
      jsMean (sliceLast3 (kpValues data)) := by
    rw [loadKpIndex_of_valid held data (kpValues_ne_nil_length data h) h]
  rw [hkp]
  refine ⟨?_, ?_, ?_, ?_⟩
  · have hval := jsMean_valid (sliceLast3 (kpValues data)) hne
      (fun a ha => kpValues_valid data a (mem_of_mem_sliceLast3 _ a ha))
    exact (isValid_iff _).mp hval
  · intro a ha
    have hent := kpValues_entry data a (by rw [ha]; simp)
    rw [ha]
    exact jsMean_singleton a hent
  · intro a b hab hsum
    have hea := kpValues_entry data (.fin a) (by rw [hab]; simp)
    have heb := kpValues_entry data (.fin b) (by rw [hab]; simp)
    rcases hea with hea | ⟨x, hx, ha0, hda, -⟩
    · cases hea
    rcases heb with heb | ⟨y, hy, hb0, hdb, -⟩
    · cases heb
    simp only [JsNum.fin.injEq] at hx hy
    subst hx
    subst hy
    refine ⟨doubleMean [a, b], ?_, doubleMean_pair a b ha0 hb0 hda hdb⟩
    rw [hab]
    exact jsMean_pair a b ha0 hb0 hda hsum
  · intro vs lo hi hvs hr
    have hvne : vs ≠ [] := by
      intro h0
      rw [h0] at hvs
      exact hne hvs
    have h3 : vs.length ≤ 3 := by
      have := sliceLast3_length (kpValues data)
      rw [hvs, List.length_map] at this
      rw [this]
      exact min_le_left _ _
    have hm := jsMean_fin vs hvne h3 (fun v hv => ⟨(hr v hv).1.nonneg, (hr v hv).1.le⟩)
    obtain ⟨b1, b2⟩ := doubleMean_bounds vs
      (fun v hv => ⟨(hr v hv).1.nonneg, (hr v hv).1.normal⟩) hvne h3
    obtain ⟨m1, m2⟩ := exactMean_between vs hvne lo hi (fun v hv => (hr v hv).2)
    have hmean : 0 ≤ exactMean vs :=
      div_nonneg (list_sum_nonneg _ (fun v hv => (hr v hv).1.nonneg)) (by positivity)
    have h0 : 0 ≤ doubleMean vs := le_trans (mul_nonneg hmean (by norm_num)) b1
    refine ⟨doubleMean vs, by rw [hvs, hm], ?_, ?_⟩
    · rcases le_total 0 lo with hlo | hlo
      · exact le_trans (mul_le_mul_of_nonneg_right m1 (by norm_num)) b1
      · exact le_trans (mul_nonpos_of_nonpos_of_nonneg hlo (by norm_num)) h0
    · exact le_trans b2 (mul_le_mul_of_nonneg_right m2 (by norm_num))

/-- C17, witness: for the header row followed by the values "2", "4", "6", read
at start-up, the Kp value is a finite number between 2 * (1 - 2^-50) and
6 * (1 + 2^-50). -/
theorem kp_value_range_witness :
    ∃ m : ℚ, (loadKpIndex state.reading (some (.array
      [.array [.str "time", .str "kp"], .array [.str "t0", .str "2"],
        .array [.str "t1", .str "4"], .array [.str "t2", .str "6"]]))).kpIndex = .fin m ∧
      2 * (1 - 1 / 2 ^ 50) ≤ m ∧ m ≤ 6 * (1 + 1 / 2 ^ 50) := by
  have hv := kpValues_2_4_6
  have h := kp_value_range state.reading
    [.array [.str "time", .str "kp"], .array [.str "t0", .str "2"],
      .array [.str "t1", .str "4"], .array [.str "t2", .str "6"]] (by rw [hv]; simp)
  obtain ⟨-, -, -, hb⟩ := h
  exact hb [2, 4, 6] 2 6 (by rw [hv]; rfl) (by
    intro v hv
    simp at hv
    rcases hv with rfl | rfl | rfl <;>
      exact ⟨Or.inr ⟨by norm_num, by norm_num⟩, by norm_num, by norm_num⟩)

/-- C17, counterexample to the claim as written: for the header row followed by
three rows of value "5.67", all three valid entries are the double
3191926235898839 / 2^49 (5.67), and the Kp value computed is
6383852471797677 / 2^50 (5.669999999999999), below the minimum of the entries.
And for the header row followed by two rows of value "1.7e308", both valid
entries are the finite double 8517715530038134 * 2^971 and the Kp value is
`+Infinity`, above the maximum of the entries. -/
theorem kp_value_range_counterexample :
    kpValues [.array [.str "time", .str "kp"], .array [.str "t0", .str "5.67"],
      .array [.str "t1", .str "5.67"], .array [.str "t2", .str "5.67"]] =
      [.fin (3191926235898839 / 2 ^ 49), .fin (3191926235898839 / 2 ^ 49),
        .fin (3191926235898839 / 2 ^ 49)] ∧
    (loadKpIndex state.reading (some (.array
      [.array [.str "time", .str "kp"], .array [.str "t0", .str "5.67"],
        .array [.str "t1", .str "5.67"], .array [.str "t2", .str "5.67"]]))).kpIndex =
      .fin (6383852471797677 / 2 ^ 50) ∧
    (6383852471797677 / 2 ^ 50 : ℚ) < 3191926235898839 / 2 ^ 49 ∧
    kpValues [.array [.str "time", .str "kp"], .array [.str "t0", .str "1.7e308"],
      .array [.str "t1", .str "1.7e308"]] =
      [.fin (8517715530038134 * 2 ^ 971), .fin (8517715530038134 * 2 ^ 971)] ∧
    (loadKpIndex state.reading (some (.array
      [.array [.str "time", .str "kp"], .array [.str "t0", .str "1.7e308"],
        .array [.str "t1", .str "1.7e308"]]))).kpIndex = .posInf := by
  rw [loadKpIndex_three_5_67, loadKpIndex_two_1_7e308]
  exact ⟨kpValues_three_5_67, rfl, by norm_num, kpValues_two_1_7e308, rfl⟩

end WeatherDrone
